import Mathlib

/-!
Shallow embedding of the hexapod inverse-kinematics solver
(`src/utils/hexapodLogic.ts`) over the real numbers.

Every definition below is translated line by line from the TypeScript
source.  JavaScript `number` arithmetic is modelled by `ℝ`; `Math.cos`,
`Math.sin`, `Math.sqrt`, `Math.atan2`, `Math.acos` become `Real.cos`,
`Real.sin`, `Real.sqrt`, `atan2` (defined below with the branch
semantics of `Math.atan2`), `Real.arccos`.  The one place where IEEE
semantics differ observably from `ℝ` (division by an exactly-zero
hypotenuse producing `Infinity`/`NaN`) is modelled separately by the
`JSNum` type further below.
-/

noncomputable section

open Real

/-- The `Point3D` record of `types.ts`: an (x, y, z) triple. -/
@[ext]
structure Point3D where
  x : ℝ
  y : ℝ
  z : ℝ

instance : Inhabited Point3D := ⟨⟨0, 0, 0⟩⟩

/-- The `HexapodDimensions` record of `types.ts`. -/
structure HexapodDimensions where
  front : ℝ
  side : ℝ
  middle : ℝ
  coxa : ℝ
  femur : ℝ
  tibia : ℝ

/-- The `BodyPose` record of `types.ts`. -/
structure BodyPose where
  tx : ℝ
  ty : ℝ
  tz : ℝ
  rx : ℝ
  ry : ℝ
  rz : ℝ

/-- All six dimension scalars are positive (the spec's global invariant). -/
def DimsPos (d : HexapodDimensions) : Prop :=
  0 < d.front ∧ 0 < d.side ∧ 0 < d.middle ∧ 0 < d.coxa ∧ 0 < d.femur ∧ 0 < d.tibia

/-- Source: `const toRad = (deg) => (deg * Math.PI) / 180`. -/
def toRad (deg : ℝ) : ℝ := deg * Real.pi / 180

/-- Source: `const toDeg = (rad) => (rad * 180) / Math.PI`. -/
def toDeg (rad : ℝ) : ℝ := rad * 180 / Real.pi

/-- Source: `rotateX` — rotation of a point about the X axis. -/
def rotateX (p : Point3D) (θ : ℝ) : Point3D :=
  ⟨p.x, p.y * Real.cos θ - p.z * Real.sin θ, p.y * Real.sin θ + p.z * Real.cos θ⟩

/-- Source: `rotateY` — rotation of a point about the Y axis. -/
def rotateY (p : Point3D) (θ : ℝ) : Point3D :=
  ⟨p.x * Real.cos θ + p.z * Real.sin θ, p.y, -p.x * Real.sin θ + p.z * Real.cos θ⟩

/-- Source: `rotateZ` — rotation of a point about the Z axis. -/
def rotateZ (p : Point3D) (θ : ℝ) : Point3D :=
  ⟨p.x * Real.cos θ - p.y * Real.sin θ, p.x * Real.sin θ + p.y * Real.cos θ, p.z⟩

/-- The branch semantics of `Math.atan2 y x` for real (non-NaN) arguments:
range `(-π, π]`, `atan2 0 0 = 0`. -/
def atan2 (y x : ℝ) : ℝ :=
  if 0 < x then Real.arctan (y / x)
  else if x < 0 then
    (if 0 ≤ y then Real.arctan (y / x) + Real.pi else Real.arctan (y / x) - Real.pi)
  else
    (if 0 < y then Real.pi / 2 else if y < 0 then -(Real.pi / 2) else 0)

/-- Source: `Math.max(-1, Math.min(1, v))` — the clamp applied before `acos`. -/
def clamp (v : ℝ) : ℝ := max (-1) (min 1 v)

/-- Source: `getLocalBodyPoints` — the six local hip points, in source order
R Middle, R Front, L Front, L Middle, L Back, R Back. -/
def getLocalBodyPoints (dims : HexapodDimensions) : List Point3D :=
  [⟨dims.middle, 0, 0⟩,
   ⟨dims.side, -dims.front, 0⟩,
   ⟨-dims.side, -dims.front, 0⟩,
   ⟨-dims.middle, 0, 0⟩,
   ⟨-dims.side, dims.front, 0⟩,
   ⟨dims.side, dims.front, 0⟩]

/-- Source: `const legReach = dims.coxa + dims.femur + dims.tibia * 0.5`. -/
def legReachConst (dims : HexapodDimensions) : ℝ :=
  dims.coxa + dims.femur + dims.tibia * 0.5

/-- The body of the `bodyPoints.map` in `getFixedFootPoints`: project the hip
direction outward by `|hip| + legReach` on the ground plane. -/
def fixedFootOf (dims : HexapodDimensions) (hip : Point3D) : Point3D :=
  let angle := atan2 hip.y hip.x
  let reach := Real.sqrt (hip.x * hip.x + hip.y * hip.y) + legReachConst dims
  ⟨Real.cos angle * reach, Real.sin angle * reach, 0⟩

/-- Source: `getFixedFootPoints` — the six fixed world-space foot points,
derived from the dimensions alone. -/
def getFixedFootPoints (dims : HexapodDimensions) : List Point3D :=
  (getLocalBodyPoints dims).map (fixedFootOf dims)

/-- The forward pose transform used both for `worldBodyPoints` and for the
`toWorld` closure inside the leg solve: rotate X, then Y, then Z, then
translate by (tx, ty, tz); angles are the pose's degrees converted to
radians. -/
def toWorldPt (pose : BodyPose) (p : Point3D) : Point3D :=
  let r := rotateZ (rotateY (rotateX p (toRad pose.rx)) (toRad pose.ry)) (toRad pose.rz)
  ⟨r.x + pose.tx, r.y + pose.ty, r.z + pose.tz⟩

/-- The inverse pose transform computing `fLocal` in the source: subtract the
translation, then rotate by −rz, then −ry, then −rx. -/
def toLocalPt (pose : BodyPose) (p : Point3D) : Point3D :=
  rotateX (rotateY (rotateZ ⟨p.x - pose.tx, p.y - pose.ty, p.z - pose.tz⟩
    (-(toRad pose.rz))) (-(toRad pose.ry))) (-(toRad pose.rx))

/-- Source: `const mountAngle = Math.atan2(localHip.y, localHip.x)`. -/
def legMountAngle (localHip : Point3D) : ℝ := atan2 localHip.y localHip.x

/-- Source: `fLocal` — the fixed foot, inverse-transformed into the unrotated
body frame. -/
def legFLocal (pose : BodyPose) (footWorld : Point3D) : Point3D :=
  toLocalPt pose footWorld

/-- Source: `vLocal = fLocal - hipLocal`. -/
def legVLocal (pose : BodyPose) (localHip footWorld : Point3D) : Point3D :=
  ⟨(legFLocal pose footWorld).x - localHip.x,
   (legFLocal pose footWorld).y - localHip.y,
   (legFLocal pose footWorld).z - localHip.z⟩

/-- Source: `vLeg = rotateZ(vLocal, -mountAngle)`. -/
def legVLeg (pose : BodyPose) (localHip footWorld : Point3D) : Point3D :=
  rotateZ (legVLocal pose localHip footWorld) (-(legMountAngle localHip))

/-- Source: `coxaAngle = Math.atan2(vLeg.y, vLeg.x)`. -/
def legCoxaAngle (pose : BodyPose) (localHip footWorld : Point3D) : ℝ :=
  atan2 (legVLeg pose localHip footWorld).y (legVLeg pose localHip footWorld).x

/-- Source: `planarDist = Math.sqrt(vLeg.x * vLeg.x + vLeg.y * vLeg.y)`. -/
def legPlanarDist (pose : BodyPose) (localHip footWorld : Point3D) : ℝ :=
  Real.sqrt ((legVLeg pose localHip footWorld).x * (legVLeg pose localHip footWorld).x +
    (legVLeg pose localHip footWorld).y * (legVLeg pose localHip footWorld).y)

/-- Source: `reach = planarDist - dims.coxa`. -/
def legReach (dims : HexapodDimensions) (pose : BodyPose) (localHip footWorld : Point3D) : ℝ :=
  legPlanarDist pose localHip footWorld - dims.coxa

/-- Source: `height = vLeg.z`. -/
def legHeight (pose : BodyPose) (localHip footWorld : Point3D) : ℝ :=
  (legVLeg pose localHip footWorld).z

/-- Source: `c = Math.sqrt(reach * reach + height * height)`. -/
def legC (dims : HexapodDimensions) (pose : BodyPose) (localHip footWorld : Point3D) : ℝ :=
  Real.sqrt (legReach dims pose localHip footWorld * legReach dims pose localHip footWorld +
    legHeight pose localHip footWorld * legHeight pose localHip footWorld)

/-- Source: `alphaTri = Math.atan2(height, reach)`. -/
def legAlphaTri (dims : HexapodDimensions) (pose : BodyPose) (localHip footWorld : Point3D) : ℝ :=
  atan2 (legHeight pose localHip footWorld) (legReach dims pose localHip footWorld)

/-- Source: `cosBeta = (femur² + c² - tibia²) / (2 * femur * c)`.  This `ℝ`
model uses Lean's convention `x / 0 = 0`, so it is only faithful to the
source's IEEE division when the divisor `2·femur·c` is nonzero; statements
that quantify over poses reaching `c = 0` go through the `JSNum` pipeline
(`femurAngleJS`, `femurAngleRadJS`) instead, which models `±Infinity` and
`NaN` at a zero divisor. -/
def legCosBeta (dims : HexapodDimensions) (pose : BodyPose) (localHip footWorld : Point3D) : ℝ :=
  (dims.femur * dims.femur + legC dims pose localHip footWorld * legC dims pose localHip footWorld -
    dims.tibia * dims.tibia) / (2 * dims.femur * legC dims pose localHip footWorld)

/-- Source: `betaTri = Math.acos(clampedCosBeta)`. -/
def legBetaTri (dims : HexapodDimensions) (pose : BodyPose) (localHip footWorld : Point3D) : ℝ :=
  Real.arccos (clamp (legCosBeta dims pose localHip footWorld))

/-- Source: `femurAngle = alphaTri + betaTri` (radians, before `toDeg`). -/
def legFemurAngleRad (dims : HexapodDimensions) (pose : BodyPose)
    (localHip footWorld : Point3D) : ℝ :=
  legAlphaTri dims pose localHip footWorld + legBetaTri dims pose localHip footWorld

/-- Source: `cosGamma = (femur² + tibia² - c²) / (2 * femur * tibia)`. -/
def legCosGamma (dims : HexapodDimensions) (pose : BodyPose)
    (localHip footWorld : Point3D) : ℝ :=
  (dims.femur * dims.femur + dims.tibia * dims.tibia -
    legC dims pose localHip footWorld * legC dims pose localHip footWorld) /
    (2 * dims.femur * dims.tibia)

/-- Source: `gammaTri = Math.acos(clampedCosGamma)` (radians, before `toDeg`). -/
def legGammaTri (dims : HexapodDimensions) (pose : BodyPose)
    (localHip footWorld : Point3D) : ℝ :=
  Real.arccos (clamp (legCosGamma dims pose localHip footWorld))

/-- Source: `p1_leg` — the coxa end point in the leg's local frame. -/
def p1Leg (dims : HexapodDimensions) (pose : BodyPose) (localHip footWorld : Point3D) : Point3D :=
  ⟨dims.coxa * Real.cos (legCoxaAngle pose localHip footWorld),
   dims.coxa * Real.sin (legCoxaAngle pose localHip footWorld), 0⟩

/-- Source: `fem_h = dims.femur * Math.cos(femurAngle)`. -/
def femH (dims : HexapodDimensions) (pose : BodyPose) (localHip footWorld : Point3D) : ℝ :=
  dims.femur * Real.cos (legFemurAngleRad dims pose localHip footWorld)

/-- Source: `fem_v = dims.femur * Math.sin(femurAngle)`. -/
def femV (dims : HexapodDimensions) (pose : BodyPose) (localHip footWorld : Point3D) : ℝ :=
  dims.femur * Real.sin (legFemurAngleRad dims pose localHip footWorld)

/-- Source: `p2_leg` — femur end in the leg frame, built from
`p2_plane = { h: coxa + fem_h, v: fem_v }`. -/
def p2Leg (dims : HexapodDimensions) (pose : BodyPose) (localHip footWorld : Point3D) : Point3D :=
  ⟨(dims.coxa + femH dims pose localHip footWorld) *
      Real.cos (legCoxaAngle pose localHip footWorld),
   (dims.coxa + femH dims pose localHip footWorld) *
      Real.sin (legCoxaAngle pose localHip footWorld),
   femV dims pose localHip footWorld⟩

/-- Source: `p3_leg` — foot in the leg frame, built from
`p3_plane = { h: coxa + reach, v: height }`. -/
def p3Leg (dims : HexapodDimensions) (pose : BodyPose) (localHip footWorld : Point3D) : Point3D :=
  ⟨(dims.coxa + legReach dims pose localHip footWorld) *
      Real.cos (legCoxaAngle pose localHip footWorld),
   (dims.coxa + legReach dims pose localHip footWorld) *
      Real.sin (legCoxaAngle pose localHip footWorld),
   legHeight pose localHip footWorld⟩

/-- Source: `j1_local = rotateZ(p1_leg, mountAngle) + hipLocal` (componentwise). -/
def j1Local (dims : HexapodDimensions) (pose : BodyPose) (localHip footWorld : Point3D) : Point3D :=
  ⟨(rotateZ (p1Leg dims pose localHip footWorld) (legMountAngle localHip)).x + localHip.x,
   (rotateZ (p1Leg dims pose localHip footWorld) (legMountAngle localHip)).y + localHip.y,
   (rotateZ (p1Leg dims pose localHip footWorld) (legMountAngle localHip)).z + localHip.z⟩

/-- Source: `j2_local = rotateZ(p2_leg, mountAngle) + hipLocal` (componentwise). -/
def j2Local (dims : HexapodDimensions) (pose : BodyPose) (localHip footWorld : Point3D) : Point3D :=
  ⟨(rotateZ (p2Leg dims pose localHip footWorld) (legMountAngle localHip)).x + localHip.x,
   (rotateZ (p2Leg dims pose localHip footWorld) (legMountAngle localHip)).y + localHip.y,
   (rotateZ (p2Leg dims pose localHip footWorld) (legMountAngle localHip)).z + localHip.z⟩

/-- Source: `j3_local = rotateZ(p3_leg, mountAngle) + hipLocal` (componentwise). -/
def j3Local (dims : HexapodDimensions) (pose : BodyPose) (localHip footWorld : Point3D) : Point3D :=
  ⟨(rotateZ (p3Leg dims pose localHip footWorld) (legMountAngle localHip)).x + localHip.x,
   (rotateZ (p3Leg dims pose localHip footWorld) (legMountAngle localHip)).y + localHip.y,
   (rotateZ (p3Leg dims pose localHip footWorld) (legMountAngle localHip)).z + localHip.z⟩

/-- The `joints` field of a `LegConfiguration` (`types.ts`). -/
structure LegJoints where
  bodyContact : Point3D
  coxa : Point3D
  femur : Point3D
  foot : Point3D

/-- The `LegConfiguration` record of `types.ts`. -/
structure LegConfiguration where
  legId : ℕ
  coxaAngle : ℝ
  femurAngle : ℝ
  tibiaAngle : ℝ
  joints : LegJoints

instance : Inhabited LegConfiguration :=
  ⟨⟨0, 0, 0, 0, ⟨default, default, default, default⟩⟩⟩

/-- The `HexapodConfiguration` record of `types.ts`. -/
structure HexapodConfiguration where
  legs : List LegConfiguration
  bodyCorners : List Point3D

/-- The body of the per-leg `map` inside `solveHexapodIK`.  `hipWorld` (only
used for `joints.bodyContact`) is `worldBodyPoints[index] = toWorldPt pose
localHip` by construction; the source's unused locals `v` and the dead
`tibiaAngle = gammaTri - Math.PI` are omitted.  The returned `tibiaAngle`
is `toDeg(gammaTri)` as in the source. -/
def solveLeg (dims : HexapodDimensions) (pose : BodyPose) (index : ℕ)
    (localHip footWorld : Point3D) : LegConfiguration :=
  { legId := index
    coxaAngle := toDeg (legCoxaAngle pose localHip footWorld)
    femurAngle := toDeg (legFemurAngleRad dims pose localHip footWorld)
    tibiaAngle := toDeg (legGammaTri dims pose localHip footWorld)
    joints :=
      { bodyContact := toWorldPt pose localHip
        coxa := toWorldPt pose (j1Local dims pose localHip footWorld)
        femur := toWorldPt pose (j2Local dims pose localHip footWorld)
        foot := toWorldPt pose (j3Local dims pose localHip footWorld) } }

/-- Source: `solveHexapodIK` — world body corners are the pose-transformed
local hip points; the legs are the per-leg solve over each (index, local
hip, fixed foot) triple. -/
def solveHexapodIK (dims : HexapodDimensions) (pose : BodyPose) : HexapodConfiguration :=
  let localBodyPoints := getLocalBodyPoints dims
  let fixedFootPoints := getFixedFootPoints dims
  let worldBodyPoints := localBodyPoints.map (toWorldPt pose)
  { legs := (List.zip (List.zip (List.range localBodyPoints.length) localBodyPoints)
      fixedFootPoints).map (fun q => solveLeg dims pose q.1.1 q.1.2 q.2)
    bodyCorners := worldBodyPoints }

/-- The i-th leg of a configuration (total, via default). -/
def legAt (cfg : HexapodConfiguration) (i : ℕ) : LegConfiguration :=
  cfg.legs.getD i default

/-- The i-th local hip point (total, via default). -/
def hipAt (dims : HexapodDimensions) (i : ℕ) : Point3D :=
  (getLocalBodyPoints dims).getD i default

/-- The i-th fixed foot point (total, via default). -/
def footAt (dims : HexapodDimensions) (i : ℕ) : Point3D :=
  (getFixedFootPoints dims).getD i default

/-- Euclidean distance between two points, used to state segment-length
invariants. -/
def dist3 (p q : Point3D) : ℝ :=
  Real.sqrt ((p.x - q.x) ^ 2 + (p.y - q.y) ^ 2 + (p.z - q.z) ^ 2)

/-! ### Basic rotation identities -/

lemma rotateX_zero (p : Point3D) : rotateX p 0 = p := by
  ext <;> simp [rotateX]

lemma rotateY_zero (p : Point3D) : rotateY p 0 = p := by
  ext <;> simp [rotateY]

lemma rotateZ_zero (p : Point3D) : rotateZ p 0 = p := by
  ext <;> simp [rotateZ]

lemma rotateX_rotateX_neg (p : Point3D) (θ : ℝ) : rotateX (rotateX p θ) (-θ) = p := by
  have h := Real.sin_sq_add_cos_sq θ
  ext <;> simp only [rotateX, Real.cos_neg, Real.sin_neg] <;>
    first
      | rfl
      | linear_combination p.y * h
      | linear_combination p.z * h

lemma rotateY_rotateY_neg (p : Point3D) (θ : ℝ) : rotateY (rotateY p θ) (-θ) = p := by
  have h := Real.sin_sq_add_cos_sq θ
  ext <;> simp only [rotateY, Real.cos_neg, Real.sin_neg] <;>
    first
      | rfl
      | linear_combination p.x * h
      | linear_combination p.z * h

lemma rotateZ_rotateZ_neg (p : Point3D) (θ : ℝ) : rotateZ (rotateZ p θ) (-θ) = p := by
  have h := Real.sin_sq_add_cos_sq θ
  ext <;> simp only [rotateZ, Real.cos_neg, Real.sin_neg] <;>
    first
      | rfl
      | linear_combination p.x * h
      | linear_combination p.y * h

lemma rotateX_neg_rotateX (p : Point3D) (θ : ℝ) : rotateX (rotateX p (-θ)) θ = p := by
  have h := rotateX_rotateX_neg p (-θ)
  rwa [neg_neg] at h

lemma rotateY_neg_rotateY (p : Point3D) (θ : ℝ) : rotateY (rotateY p (-θ)) θ = p := by
  have h := rotateY_rotateY_neg p (-θ)
  rwa [neg_neg] at h

lemma rotateZ_neg_rotateZ (p : Point3D) (θ : ℝ) : rotateZ (rotateZ p (-θ)) θ = p := by
  have h := rotateZ_rotateZ_neg p (-θ)
  rwa [neg_neg] at h

/-! ### The forward and inverse pose transforms are exact inverses -/

lemma toLocalPt_toWorldPt (pose : BodyPose) (p : Point3D) :
    toLocalPt pose (toWorldPt pose p) = p := by
  have h1 : (⟨(toWorldPt pose p).x - pose.tx, (toWorldPt pose p).y - pose.ty,
      (toWorldPt pose p).z - pose.tz⟩ : Point3D) =
      rotateZ (rotateY (rotateX p (toRad pose.rx)) (toRad pose.ry)) (toRad pose.rz) := by
    ext <;> simp [toWorldPt]
  unfold toLocalPt
  rw [h1, rotateZ_rotateZ_neg, rotateY_rotateY_neg, rotateX_rotateX_neg]

lemma toWorldPt_toLocalPt (pose : BodyPose) (q : Point3D) :
    toWorldPt pose (toLocalPt pose q) = q := by
  unfold toWorldPt toLocalPt
  rw [rotateX_neg_rotateX, rotateY_neg_rotateY, rotateZ_neg_rotateZ]
  ext <;> simp

/-! ### Polar round-trip facts about `atan2` -/

lemma sqrt_cos_atan2 (y x : ℝ) :
    Real.sqrt (x * x + y * y) * Real.cos (atan2 y x) = x := by
  unfold atan2
  rcases lt_trichotomy 0 x with hx | hx | hx
  · rw [if_pos hx, Real.cos_arctan]
    have hS : (0 : ℝ) < x * x + y * y := by nlinarith [mul_self_nonneg y]
    have hkey : Real.sqrt (1 + (y / x) ^ 2) = Real.sqrt (x * x + y * y) / x := by
      rw [show 1 + (y / x) ^ 2 = (x * x + y * y) / x ^ 2 by field_simp; ring,
        Real.sqrt_div hS.le, Real.sqrt_sq hx.le]
    have hs : Real.sqrt (x * x + y * y) ≠ 0 := ne_of_gt (Real.sqrt_pos.2 hS)
    rw [hkey]
    field_simp
  · rw [if_neg (by rw [← hx] at *; exact lt_irrefl 0), if_neg (by rw [← hx]; exact lt_irrefl 0)]
    subst hx
    rcases lt_trichotomy 0 y with hy | hy | hy
    · rw [if_pos hy, Real.cos_pi_div_two, mul_zero]
    · rw [if_neg (by rw [← hy] at *; exact lt_irrefl 0),
        if_neg (by rw [← hy]; exact lt_irrefl 0)]
      simp [← hy]
    · rw [if_neg (by linarith), if_pos hy]
      simp [Real.cos_pi_div_two]
  · have hx0 : ¬ 0 < x := by linarith
    rw [if_neg hx0, if_pos hx]
    have hS : (0 : ℝ) < x * x + y * y := by nlinarith [mul_self_nonneg y]
    have hs : Real.sqrt (x * x + y * y) ≠ 0 := ne_of_gt (Real.sqrt_pos.2 hS)
    have hxne : x ≠ 0 := ne_of_lt hx
    have hkey : Real.sqrt (1 + (y / x) ^ 2) = Real.sqrt (x * x + y * y) / (-x) := by
      rw [show 1 + (y / x) ^ 2 = (x * x + y * y) / x ^ 2 by field_simp; ring,
        Real.sqrt_div hS.le, Real.sqrt_sq_eq_abs, abs_of_neg hx]
    rcases le_or_lt 0 y with hy | hy
    · rw [if_pos hy, Real.cos_add_pi, Real.cos_arctan, hkey]
      field_simp
    · rw [if_neg (by linarith), Real.cos_sub_pi, Real.cos_arctan, hkey]
      field_simp

lemma sqrt_sin_atan2 (y x : ℝ) :
    Real.sqrt (x * x + y * y) * Real.sin (atan2 y x) = y := by
  unfold atan2
  rcases lt_trichotomy 0 x with hx | hx | hx
  · rw [if_pos hx, Real.sin_arctan]
    have hS : (0 : ℝ) < x * x + y * y := by nlinarith [mul_self_nonneg y]
    have hkey : Real.sqrt (1 + (y / x) ^ 2) = Real.sqrt (x * x + y * y) / x := by
      rw [show 1 + (y / x) ^ 2 = (x * x + y * y) / x ^ 2 by field_simp; ring,
        Real.sqrt_div hS.le, Real.sqrt_sq hx.le]
    have hs : Real.sqrt (x * x + y * y) ≠ 0 := ne_of_gt (Real.sqrt_pos.2 hS)
    rw [hkey]
    field_simp
  · rw [if_neg (by rw [← hx] at *; exact lt_irrefl 0), if_neg (by rw [← hx]; exact lt_irrefl 0)]
    subst hx
    rcases lt_trichotomy 0 y with hy | hy | hy
    · rw [if_pos hy, Real.sin_pi_div_two, mul_one,
        show (0 : ℝ) * 0 + y * y = y * y by ring, Real.sqrt_mul_self hy.le]
    · rw [if_neg (by rw [← hy] at *; exact lt_irrefl 0),
        if_neg (by rw [← hy]; exact lt_irrefl 0)]
      simp [← hy]
    · rw [if_neg (by linarith), if_pos hy]
      rw [Real.sin_neg, Real.sin_pi_div_two,
        show (0 : ℝ) * 0 + y * y = y * y by ring, Real.sqrt_mul_self_eq_abs, abs_of_neg hy]
      ring
  · have hx0 : ¬ 0 < x := by linarith
    rw [if_neg hx0, if_pos hx]
    have hS : (0 : ℝ) < x * x + y * y := by nlinarith [mul_self_nonneg y]
    have hs : Real.sqrt (x * x + y * y) ≠ 0 := ne_of_gt (Real.sqrt_pos.2 hS)
    have hxne : x ≠ 0 := ne_of_lt hx
    have hkey : Real.sqrt (1 + (y / x) ^ 2) = Real.sqrt (x * x + y * y) / (-x) := by
      rw [show 1 + (y / x) ^ 2 = (x * x + y * y) / x ^ 2 by field_simp; ring,
        Real.sqrt_div hS.le, Real.sqrt_sq_eq_abs, abs_of_neg hx]
    rcases le_or_lt 0 y with hy | hy
    · rw [if_pos hy, Real.sin_add_pi, Real.sin_arctan, hkey]
      field_simp
      ring
    · rw [if_neg (by linarith), Real.sin_sub_pi, Real.sin_arctan, hkey]
      field_simp
      ring

/-! ### The forward reconstruction returns the requested foot exactly -/

lemma p3Leg_eq_vLeg (dims : HexapodDimensions) (pose : BodyPose)
    (localHip footWorld : Point3D) :
    p3Leg dims pose localHip footWorld = legVLeg pose localHip footWorld := by
  have hh : dims.coxa + legReach dims pose localHip footWorld =
      legPlanarDist pose localHip footWorld := by
    unfold legReach
    ring
  ext
  · show (dims.coxa + legReach dims pose localHip footWorld) *
        Real.cos (legCoxaAngle pose localHip footWorld) = _
    rw [hh]
    exact sqrt_cos_atan2 (legVLeg pose localHip footWorld).y (legVLeg pose localHip footWorld).x
  · show (dims.coxa + legReach dims pose localHip footWorld) *
        Real.sin (legCoxaAngle pose localHip footWorld) = _
    rw [hh]
    exact sqrt_sin_atan2 (legVLeg pose localHip footWorld).y (legVLeg pose localHip footWorld).x
  · rfl

lemma j3Local_eq_fLocal (dims : HexapodDimensions) (pose : BodyPose)
    (localHip footWorld : Point3D) :
    j3Local dims pose localHip footWorld = legFLocal pose footWorld := by
  unfold j3Local
  rw [p3Leg_eq_vLeg]
  unfold legVLeg
  rw [rotateZ_neg_rotateZ]
  ext <;> simp [legVLocal]

/-- The reconstructed world-space foot of any leg solve is exactly the
requested fixed foot point, for every dimension set and every pose. -/
lemma solveLeg_foot (dims : HexapodDimensions) (pose : BodyPose) (index : ℕ)
    (localHip footWorld : Point3D) :
    (solveLeg dims pose index localHip footWorld).joints.foot = footWorld := by
  show toWorldPt pose (j3Local dims pose localHip footWorld) = footWorld
  rw [j3Local_eq_fLocal]
  exact toWorldPt_toLocalPt pose footWorld

/-! ### Unfolding the solver's leg list -/

lemma solveHexapodIK_legs (dims : HexapodDimensions) (pose : BodyPose) :
    (solveHexapodIK dims pose).legs =
      [solveLeg dims pose 0 (hipAt dims 0) (footAt dims 0),
       solveLeg dims pose 1 (hipAt dims 1) (footAt dims 1),
       solveLeg dims pose 2 (hipAt dims 2) (footAt dims 2),
       solveLeg dims pose 3 (hipAt dims 3) (footAt dims 3),
       solveLeg dims pose 4 (hipAt dims 4) (footAt dims 4),
       solveLeg dims pose 5 (hipAt dims 5) (footAt dims 5)] := by
  rfl

lemma legAt_solve (dims : HexapodDimensions) (pose : BodyPose) (i : ℕ) (hi : i < 6) :
    legAt (solveHexapodIK dims pose) i =
      solveLeg dims pose i (hipAt dims i) (footAt dims i) := by
  interval_cases i <;> rfl

lemma legs_length (dims : HexapodDimensions) (pose : BodyPose) :
    (solveHexapodIK dims pose).legs.length = 6 := by
  rw [solveHexapodIK_legs]
  rfl

lemma bodyCorners_length (dims : HexapodDimensions) (pose : BodyPose) :
    (solveHexapodIK dims pose).bodyCorners.length = 6 := by
  rfl

lemma footAt_fixedFootOf (dims : HexapodDimensions) (i : ℕ) (hi : i < 6) :
    footAt dims i = fixedFootOf dims (hipAt dims i) := by
  interval_cases i <;> rfl

lemma hipAt_z (dims : HexapodDimensions) (i : ℕ) (hi : i < 6) : (hipAt dims i).z = 0 := by
  interval_cases i <;> rfl

lemma footAt_z (dims : HexapodDimensions) (i : ℕ) (hi : i < 6) : (footAt dims i).z = 0 := by
  interval_cases i <;> rfl

/-! ### Rotations and the pose transform preserve distances -/

lemma sqDiff_rotateX (p q : Point3D) (θ : ℝ) :
    ((rotateX p θ).x - (rotateX q θ).x) ^ 2 + ((rotateX p θ).y - (rotateX q θ).y) ^ 2 +
      ((rotateX p θ).z - (rotateX q θ).z) ^ 2 =
      (p.x - q.x) ^ 2 + (p.y - q.y) ^ 2 + (p.z - q.z) ^ 2 := by
  simp only [rotateX]
  linear_combination ((p.y - q.y) ^ 2 + (p.z - q.z) ^ 2) * Real.sin_sq_add_cos_sq θ

lemma sqDiff_rotateY (p q : Point3D) (θ : ℝ) :
    ((rotateY p θ).x - (rotateY q θ).x) ^ 2 + ((rotateY p θ).y - (rotateY q θ).y) ^ 2 +
      ((rotateY p θ).z - (rotateY q θ).z) ^ 2 =
      (p.x - q.x) ^ 2 + (p.y - q.y) ^ 2 + (p.z - q.z) ^ 2 := by
  simp only [rotateY]
  linear_combination ((p.x - q.x) ^ 2 + (p.z - q.z) ^ 2) * Real.sin_sq_add_cos_sq θ

lemma sqDiff_rotateZ (p q : Point3D) (θ : ℝ) :
    ((rotateZ p θ).x - (rotateZ q θ).x) ^ 2 + ((rotateZ p θ).y - (rotateZ q θ).y) ^ 2 +
      ((rotateZ p θ).z - (rotateZ q θ).z) ^ 2 =
      (p.x - q.x) ^ 2 + (p.y - q.y) ^ 2 + (p.z - q.z) ^ 2 := by
  simp only [rotateZ]
  linear_combination ((p.x - q.x) ^ 2 + (p.y - q.y) ^ 2) * Real.sin_sq_add_cos_sq θ

lemma dist3_toWorldPt (pose : BodyPose) (p q : Point3D) :
    dist3 (toWorldPt pose p) (toWorldPt pose q) = dist3 p q := by
  unfold dist3 toWorldPt
  congr 1
  have h1 := sqDiff_rotateX p q (toRad pose.rx)
  have h2 := sqDiff_rotateY (rotateX p (toRad pose.rx)) (rotateX q (toRad pose.rx))
    (toRad pose.ry)
  have h3 := sqDiff_rotateZ (rotateY (rotateX p (toRad pose.rx)) (toRad pose.ry))
    (rotateY (rotateX q (toRad pose.rx)) (toRad pose.ry)) (toRad pose.rz)
  calc ((rotateZ (rotateY (rotateX p (toRad pose.rx)) (toRad pose.ry)) (toRad pose.rz)).x +
          pose.tx -
          ((rotateZ (rotateY (rotateX q (toRad pose.rx)) (toRad pose.ry)) (toRad pose.rz)).x +
          pose.tx)) ^ 2 +
        ((rotateZ (rotateY (rotateX p (toRad pose.rx)) (toRad pose.ry)) (toRad pose.rz)).y +
          pose.ty -
          ((rotateZ (rotateY (rotateX q (toRad pose.rx)) (toRad pose.ry)) (toRad pose.rz)).y +
          pose.ty)) ^ 2 +
        ((rotateZ (rotateY (rotateX p (toRad pose.rx)) (toRad pose.ry)) (toRad pose.rz)).z +
          pose.tz -
          ((rotateZ (rotateY (rotateX q (toRad pose.rx)) (toRad pose.ry)) (toRad pose.rz)).z +
          pose.tz)) ^ 2
      = ((rotateZ (rotateY (rotateX p (toRad pose.rx)) (toRad pose.ry)) (toRad pose.rz)).x -
          (rotateZ (rotateY (rotateX q (toRad pose.rx)) (toRad pose.ry)) (toRad pose.rz)).x) ^ 2 +
        ((rotateZ (rotateY (rotateX p (toRad pose.rx)) (toRad pose.ry)) (toRad pose.rz)).y -
          (rotateZ (rotateY (rotateX q (toRad pose.rx)) (toRad pose.ry)) (toRad pose.rz)).y) ^ 2 +
        ((rotateZ (rotateY (rotateX p (toRad pose.rx)) (toRad pose.ry)) (toRad pose.rz)).z -
          (rotateZ (rotateY (rotateX q (toRad pose.rx)) (toRad pose.ry)) (toRad pose.rz)).z) ^ 2 := by
        ring
    _ = (p.x - q.x) ^ 2 + (p.y - q.y) ^ 2 + (p.z - q.z) ^ 2 := by rw [h3, h2, h1]

/-! ### Radius of a fixed foot point -/

lemma fixedFootOf_dist (dims : HexapodDimensions) (hip : Point3D)
    (hL : 0 ≤ legReachConst dims) :
    Real.sqrt ((fixedFootOf dims hip).x * (fixedFootOf dims hip).x +
        (fixedFootOf dims hip).y * (fixedFootOf dims hip).y) =
      Real.sqrt (hip.x * hip.x + hip.y * hip.y) + legReachConst dims := by
  have hr : 0 ≤ Real.sqrt (hip.x * hip.x + hip.y * hip.y) + legReachConst dims :=
    add_nonneg (Real.sqrt_nonneg _) hL
  have hpyth := Real.sin_sq_add_cos_sq (atan2 hip.y hip.x)
  show Real.sqrt
      (Real.cos (atan2 hip.y hip.x) * (Real.sqrt (hip.x * hip.x + hip.y * hip.y) +
          legReachConst dims) *
        (Real.cos (atan2 hip.y hip.x) * (Real.sqrt (hip.x * hip.x + hip.y * hip.y) +
          legReachConst dims)) +
       Real.sin (atan2 hip.y hip.x) * (Real.sqrt (hip.x * hip.x + hip.y * hip.y) +
          legReachConst dims) *
        (Real.sin (atan2 hip.y hip.x) * (Real.sqrt (hip.x * hip.x + hip.y * hip.y) +
          legReachConst dims))) = _
  rw [show Real.cos (atan2 hip.y hip.x) * (Real.sqrt (hip.x * hip.x + hip.y * hip.y) +
        legReachConst dims) *
      (Real.cos (atan2 hip.y hip.x) * (Real.sqrt (hip.x * hip.x + hip.y * hip.y) +
        legReachConst dims)) +
      Real.sin (atan2 hip.y hip.x) * (Real.sqrt (hip.x * hip.x + hip.y * hip.y) +
        legReachConst dims) *
      (Real.sin (atan2 hip.y hip.x) * (Real.sqrt (hip.x * hip.x + hip.y * hip.y) +
        legReachConst dims)) =
      (Real.sqrt (hip.x * hip.x + hip.y * hip.y) + legReachConst dims) *
      (Real.sqrt (hip.x * hip.x + hip.y * hip.y) + legReachConst dims) by
    linear_combination (Real.sqrt (hip.x * hip.x + hip.y * hip.y) + legReachConst dims) ^ 2 *
      hpyth]
  exact Real.sqrt_mul_self hr

lemma normSq_rotateZ (p : Point3D) (θ : ℝ) :
    (rotateZ p θ).x ^ 2 + (rotateZ p θ).y ^ 2 + (rotateZ p θ).z ^ 2 =
      p.x ^ 2 + p.y ^ 2 + p.z ^ 2 := by
  simp only [rotateZ]
  linear_combination (p.x ^ 2 + p.y ^ 2) * Real.sin_sq_add_cos_sq θ

lemma dist3_hip_j1 (dims : HexapodDimensions) (pose : BodyPose)
    (localHip footWorld : Point3D) (hc : 0 ≤ dims.coxa) :
    dist3 localHip (j1Local dims pose localHip footWorld) = dims.coxa := by
  unfold dist3 j1Local
  have hA := Real.sin_sq_add_cos_sq (legCoxaAngle pose localHip footWorld)
  have h := normSq_rotateZ (p1Leg dims pose localHip footWorld) (legMountAngle localHip)
  convert Real.sqrt_sq hc using 2
  simp only [p1Leg] at h ⊢
  linear_combination h + dims.coxa ^ 2 * hA

lemma dist3_j1_j2 (dims : HexapodDimensions) (pose : BodyPose)
    (localHip footWorld : Point3D) (hf : 0 ≤ dims.femur) :
    dist3 (j1Local dims pose localHip footWorld) (j2Local dims pose localHip footWorld) =
      dims.femur := by
  unfold dist3 j1Local j2Local
  have hA := Real.sin_sq_add_cos_sq (legCoxaAngle pose localHip footWorld)
  have hF := Real.sin_sq_add_cos_sq (legFemurAngleRad dims pose localHip footWorld)
  have h := sqDiff_rotateZ (p1Leg dims pose localHip footWorld)
    (p2Leg dims pose localHip footWorld) (legMountAngle localHip)
  convert Real.sqrt_sq hf using 2
  simp only [p1Leg, p2Leg, femH, femV] at h ⊢
  linear_combination h +
    (dims.femur * Real.cos (legFemurAngleRad dims pose localHip footWorld)) ^ 2 * hA +
    dims.femur ^ 2 * hF

/-! ### Claim C1 -/

/-- C1: for every dimension set with all six scalars positive and every pose,
and each of the six legs, the world-space foot in the solver's output equals
that leg's fixed foot point exactly (hence in particular within 1e-6 for the
identity pose). -/
theorem foot_eq_fixedFootPoint (dims : HexapodDimensions) (pose : BodyPose)
    (hd : DimsPos dims) (i : ℕ) (hi : i < 6) :
    (legAt (solveHexapodIK dims pose) i).joints.foot = footAt dims i := by
  rw [legAt_solve dims pose i hi]
  exact solveLeg_foot dims pose i (hipAt dims i) (footAt dims i)

/-- Witness for C1 at a concrete positive dimension set and the zero pose. -/
theorem foot_eq_fixedFootPoint_witness :
    DimsPos ⟨1, 1, 1, 1, 1, 1⟩ ∧ (0 : ℕ) < 6 ∧
      (legAt (solveHexapodIK ⟨1, 1, 1, 1, 1, 1⟩ ⟨0, 0, 0, 0, 0, 0⟩) 0).joints.foot =
        footAt ⟨1, 1, 1, 1, 1, 1⟩ 0 :=
  ⟨by norm_num [DimsPos], by norm_num,
   foot_eq_fixedFootPoint ⟨1, 1, 1, 1, 1, 1⟩ ⟨0, 0, 0, 0, 0, 0⟩ (by norm_num [DimsPos]) 0
     (by norm_num)⟩

/-! ### Claim C2 -/

/-- C2: the forward pose transform (rotate about X, then Y, then Z, then
translate) and the inverse transform (untranslate, then rotate by −rz, −ry,
−rx) are exact two-sided inverses on every point, for every pose. -/
theorem pose_transform_inverse (pose : BodyPose) (p : Point3D) :
    toLocalPt pose (toWorldPt pose p) = p ∧ toWorldPt pose (toLocalPt pose p) = p :=
  ⟨toLocalPt_toWorldPt pose p, toWorldPt_toLocalPt pose p⟩

/-! ### Claim C4 -/

/-- C4: each fixed foot point lies on the ground plane in the direction of the
leg's mount angle, at distance (hip distance from center) + coxa + femur +
0.5·tibia from the body center.  It is computed by `getFixedFootPoints` from
the dimensions alone, so it cannot change with the pose. -/
theorem fixedFootPoint_geometry (dims : HexapodDimensions) (hd : DimsPos dims) (i : ℕ)
    (hi : i < 6) :
    (footAt dims i).z = 0 ∧
    (footAt dims i).x = Real.cos (legMountAngle (hipAt dims i)) *
      (Real.sqrt ((hipAt dims i).x * (hipAt dims i).x + (hipAt dims i).y * (hipAt dims i).y) +
        (dims.coxa + dims.femur + dims.tibia * 0.5)) ∧
    (footAt dims i).y = Real.sin (legMountAngle (hipAt dims i)) *
      (Real.sqrt ((hipAt dims i).x * (hipAt dims i).x + (hipAt dims i).y * (hipAt dims i).y) +
        (dims.coxa + dims.femur + dims.tibia * 0.5)) ∧
    Real.sqrt ((footAt dims i).x * (footAt dims i).x + (footAt dims i).y * (footAt dims i).y) =
      Real.sqrt ((hipAt dims i).x * (hipAt dims i).x + (hipAt dims i).y * (hipAt dims i).y) +
        (dims.coxa + dims.femur + dims.tibia * 0.5) := by
  obtain ⟨-, -, -, h4, h5, h6⟩ := hd
  have hL : 0 ≤ legReachConst dims := by
    unfold legReachConst
    linarith
  refine ⟨footAt_z dims i hi, ?_, ?_, ?_⟩
  · rw [footAt_fixedFootOf dims i hi]
    rfl
  · rw [footAt_fixedFootOf dims i hi]
    rfl
  · rw [footAt_fixedFootOf dims i hi]
    exact fixedFootOf_dist dims (hipAt dims i) hL

/-- Witness for C4 at a concrete positive dimension set. -/
theorem fixedFootPoint_geometry_witness :
    DimsPos ⟨1, 1, 1, 1, 1, 1⟩ ∧ (0 : ℕ) < 6 ∧
      ((footAt ⟨1, 1, 1, 1, 1, 1⟩ 0).z = 0 ∧
      (footAt ⟨1, 1, 1, 1, 1, 1⟩ 0).x =
        Real.cos (legMountAngle (hipAt ⟨1, 1, 1, 1, 1, 1⟩ 0)) *
        (Real.sqrt ((hipAt ⟨1, 1, 1, 1, 1, 1⟩ 0).x *
            (hipAt ⟨1, 1, 1, 1, 1, 1⟩ 0).x +
          (hipAt ⟨1, 1, 1, 1, 1, 1⟩ 0).y * (hipAt ⟨1, 1, 1, 1, 1, 1⟩ 0).y) +
          ((1 : ℝ) + 1 + 1 * 0.5)) ∧
      (footAt ⟨1, 1, 1, 1, 1, 1⟩ 0).y =
        Real.sin (legMountAngle (hipAt ⟨1, 1, 1, 1, 1, 1⟩ 0)) *
        (Real.sqrt ((hipAt ⟨1, 1, 1, 1, 1, 1⟩ 0).x *
            (hipAt ⟨1, 1, 1, 1, 1, 1⟩ 0).x +
          (hipAt ⟨1, 1, 1, 1, 1, 1⟩ 0).y * (hipAt ⟨1, 1, 1, 1, 1, 1⟩ 0).y) +
          ((1 : ℝ) + 1 + 1 * 0.5)) ∧
      Real.sqrt ((footAt ⟨1, 1, 1, 1, 1, 1⟩ 0).x * (footAt ⟨1, 1, 1, 1, 1, 1⟩
          0).x +
        (footAt ⟨1, 1, 1, 1, 1, 1⟩ 0).y * (footAt ⟨1, 1, 1, 1, 1, 1⟩ 0).y) =
        Real.sqrt ((hipAt ⟨1, 1, 1, 1, 1, 1⟩ 0).x *
            (hipAt ⟨1, 1, 1, 1, 1, 1⟩ 0).x +
          (hipAt ⟨1, 1, 1, 1, 1, 1⟩ 0).y * (hipAt ⟨1, 1, 1, 1, 1, 1⟩ 0).y) +
          ((1 : ℝ) + 1 + 1 * 0.5)) :=
  ⟨by norm_num [DimsPos], by norm_num,
   fixedFootPoint_geometry ⟨1, 1, 1, 1, 1, 1⟩ (by norm_num [DimsPos]) 0 (by norm_num)⟩

/-! ### Claim C9 -/

/-- C9: the geometry builder returns exactly six local hip points in the fixed
order R-middle, R-front, L-front, L-middle, L-back, R-back, all with z = 0,
and leg k+3 is the pointwise negation of leg k for k = 0, 1, 2. -/
theorem localBodyPoints_layout (dims : HexapodDimensions) :
    getLocalBodyPoints dims =
      [⟨dims.middle, 0, 0⟩, ⟨dims.side, -dims.front, 0⟩, ⟨-dims.side, -dims.front, 0⟩,
       ⟨-dims.middle, 0, 0⟩, ⟨-dims.side, dims.front, 0⟩, ⟨dims.side, dims.front, 0⟩] ∧
    (getLocalBodyPoints dims).length = 6 ∧
    (∀ p ∈ getLocalBodyPoints dims, p.z = 0) ∧
    (∀ k : ℕ, k < 3 → hipAt dims (k + 3) =
      ⟨-(hipAt dims k).x, -(hipAt dims k).y, -(hipAt dims k).z⟩) := by
  refine ⟨rfl, rfl, ?_, ?_⟩
  · intro p hp
    simp only [getLocalBodyPoints, List.mem_cons, List.not_mem_nil, or_false] at hp
    rcases hp with h | h | h | h | h | h <;> rw [h]
  · intro k hk
    interval_cases k <;> (ext <;> simp [hipAt, getLocalBodyPoints])

/-! ### Claim C6 -/

/-- Distance of the i-th fixed foot point from the body center, measured on
the ground plane (its z is 0). -/
def footRadius (dims : HexapodDimensions) (i : ℕ) : ℝ :=
  Real.sqrt ((footAt dims i).x * (footAt dims i).x + (footAt dims i).y * (footAt dims i).y)

lemma footRadius_hip (dims : HexapodDimensions) (i : ℕ) (hi : i < 6)
    (hL : 0 ≤ legReachConst dims) :
    footRadius dims i =
      Real.sqrt ((hipAt dims i).x * (hipAt dims i).x + (hipAt dims i).y * (hipAt dims i).y) +
        legReachConst dims := by
  unfold footRadius
  rw [footAt_fixedFootOf dims i hi]
  exact fixedFootOf_dist dims (hipAt dims i) hL

/-- C6 counterexample: with all widths equal to 1 and unit leg segments, the
front-right foot radius exceeds the middle-right foot radius by √2 − 1 > 2/5,
so the six fixed foot points do not lie at one common distance from the
center (and no tolerance smaller than 0.4 can absorb the difference). -/
theorem fixedFoot_radius_counterexample :
    footRadius ⟨1, 1, 1, 1, 1, 1⟩ 0 = 7 / 2 ∧
      footRadius ⟨1, 1, 1, 1, 1, 1⟩ 1 = Real.sqrt 2 + 5 / 2 ∧
      2 / 5 < footRadius ⟨1, 1, 1, 1, 1, 1⟩ 1 - footRadius ⟨1, 1, 1, 1, 1, 1⟩ 0 := by
  have hL : (0 : ℝ) ≤ legReachConst ⟨1, 1, 1, 1, 1, 1⟩ := by
    unfold legReachConst
    norm_num
  have h0 : footRadius ⟨1, 1, 1, 1, 1, 1⟩ 0 = 7 / 2 := by
    rw [footRadius_hip ⟨1, 1, 1, 1, 1, 1⟩ 0 (by norm_num) hL]
    show Real.sqrt ((1 : ℝ) * 1 + 0 * 0) + legReachConst ⟨1, 1, 1, 1, 1, 1⟩ = 7 / 2
    rw [show (1 : ℝ) * 1 + 0 * 0 = 1 by norm_num, Real.sqrt_one]
    unfold legReachConst
    norm_num
  have h1 : footRadius ⟨1, 1, 1, 1, 1, 1⟩ 1 = Real.sqrt 2 + 5 / 2 := by
    rw [footRadius_hip ⟨1, 1, 1, 1, 1, 1⟩ 1 (by norm_num) hL]
    show Real.sqrt ((1 : ℝ) * 1 + -1 * -1) + legReachConst ⟨1, 1, 1, 1, 1, 1⟩ =
      Real.sqrt 2 + 5 / 2
    rw [show (1 : ℝ) * 1 + -1 * -1 = 2 by norm_num]
    unfold legReachConst
    norm_num
  refine ⟨h0, h1, ?_⟩
  rw [h0, h1]
  have hs := Real.sq_sqrt (by norm_num : (0 : ℝ) ≤ 2)
  nlinarith [Real.sqrt_nonneg 2]

/-- C6 (amended): with all three widths equal and positive, the six fixed foot
points lie on two circles about the body center, not one: the middle legs
(0 and 3) at radius w + (coxa + femur + 0.5·tibia), and the corner legs
(1, 2, 4, 5) at radius √2·w + (coxa + femur + 0.5·tibia). -/
theorem fixedFoot_two_radii (dims : HexapodDimensions) (hd : DimsPos dims)
    (hs : dims.side = dims.front) (hm : dims.middle = dims.front) :
    footRadius dims 0 = dims.front + legReachConst dims ∧
      footRadius dims 3 = dims.front + legReachConst dims ∧
      footRadius dims 1 = Real.sqrt 2 * dims.front + legReachConst dims ∧
      footRadius dims 2 = Real.sqrt 2 * dims.front + legReachConst dims ∧
      footRadius dims 4 = Real.sqrt 2 * dims.front + legReachConst dims ∧
      footRadius dims 5 = Real.sqrt 2 * dims.front + legReachConst dims := by
  obtain ⟨hf, -, -, h4, h5, h6⟩ := hd
  have hL : 0 ≤ legReachConst dims := by
    unfold legReachConst
    linarith
  have hmid : Real.sqrt (dims.middle * dims.middle + 0 * 0) = dims.front := by
    rw [show dims.middle * dims.middle + 0 * 0 = dims.front * dims.front by rw [hm]; ring,
      Real.sqrt_mul_self hf.le]
  have hcorner : Real.sqrt (dims.side * dims.side + dims.front * dims.front) =
      Real.sqrt 2 * dims.front := by
    rw [show dims.side * dims.side + dims.front * dims.front =
        2 * (dims.front * dims.front) by rw [hs]; ring,
      Real.sqrt_mul (by norm_num : (0 : ℝ) ≤ 2), Real.sqrt_mul_self hf.le]
  refine ⟨?_, ?_, ?_, ?_, ?_, ?_⟩
  · rw [footRadius_hip dims 0 (by norm_num) hL]
    show Real.sqrt (dims.middle * dims.middle + 0 * 0) + legReachConst dims = _
    rw [hmid]
  · rw [footRadius_hip dims 3 (by norm_num) hL]
    show Real.sqrt (-dims.middle * -dims.middle + 0 * 0) + legReachConst dims = _
    rw [show -dims.middle * -dims.middle + 0 * 0 =
      dims.middle * dims.middle + 0 * 0 by ring, hmid]
  · rw [footRadius_hip dims 1 (by norm_num) hL]
    show Real.sqrt (dims.side * dims.side + -dims.front * -dims.front) + legReachConst dims = _
    rw [show dims.side * dims.side + -dims.front * -dims.front =
      dims.side * dims.side + dims.front * dims.front by ring, hcorner]
  · rw [footRadius_hip dims 2 (by norm_num) hL]
    show Real.sqrt (-dims.side * -dims.side + -dims.front * -dims.front) +
      legReachConst dims = _
    rw [show -dims.side * -dims.side + -dims.front * -dims.front =
      dims.side * dims.side + dims.front * dims.front by ring, hcorner]
  · rw [footRadius_hip dims 4 (by norm_num) hL]
    show Real.sqrt (-dims.side * -dims.side + dims.front * dims.front) +
      legReachConst dims = _
    rw [show -dims.side * -dims.side + dims.front * dims.front =
      dims.side * dims.side + dims.front * dims.front by ring, hcorner]
  · rw [footRadius_hip dims 5 (by norm_num) hL]
    show Real.sqrt (dims.side * dims.side + dims.front * dims.front) + legReachConst dims = _
    rw [hcorner]

/-- Witness for the amended C6 at a concrete equal-width dimension set. -/
theorem fixedFoot_two_radii_witness :
    DimsPos ⟨1, 1, 1, 1, 1, 1⟩ ∧
      (footRadius ⟨1, 1, 1, 1, 1, 1⟩ 0 = 1 + legReachConst ⟨1, 1, 1, 1, 1, 1⟩ ∧
        footRadius ⟨1, 1, 1, 1, 1, 1⟩ 3 = 1 + legReachConst ⟨1, 1, 1, 1, 1, 1⟩ ∧
        footRadius ⟨1, 1, 1, 1, 1, 1⟩ 1 = Real.sqrt 2 * 1 + legReachConst ⟨1, 1, 1, 1, 1, 1⟩ ∧
        footRadius ⟨1, 1, 1, 1, 1, 1⟩ 2 = Real.sqrt 2 * 1 + legReachConst ⟨1, 1, 1, 1, 1, 1⟩ ∧
        footRadius ⟨1, 1, 1, 1, 1, 1⟩ 4 = Real.sqrt 2 * 1 + legReachConst ⟨1, 1, 1, 1, 1, 1⟩ ∧
        footRadius ⟨1, 1, 1, 1, 1, 1⟩ 5 = Real.sqrt 2 * 1 + legReachConst ⟨1, 1, 1, 1, 1, 1⟩) :=
  ⟨by norm_num [DimsPos], fixedFoot_two_radii ⟨1, 1, 1, 1, 1, 1⟩ (by norm_num [DimsPos]) rfl rfl⟩

/-! ### Poses that only translate the body -/

/-- The pose of the §8 scenarios: identity in every component except the z
translation. -/
def tzPose (tz : ℝ) : BodyPose := ⟨0, 0, tz, 0, 0, 0⟩

lemma atan2_zero_pos (x : ℝ) (hx : 0 < x) : atan2 0 x = 0 := by
  unfold atan2
  rw [if_pos hx, zero_div, Real.arctan_zero]

lemma atan2_pos_x (y x : ℝ) (hx : 0 < x) : atan2 y x = Real.arctan (y / x) := by
  unfold atan2
  rw [if_pos hx]

lemma toLocalPt_translation (tx ty tz : ℝ) (p : Point3D) :
    toLocalPt ⟨tx, ty, tz, 0, 0, 0⟩ p = ⟨p.x - tx, p.y - ty, p.z - tz⟩ := by
  unfold toLocalPt toRad
  ext <;> simp [rotateX, rotateY, rotateZ]

/-- Under a pure translation pose, every leg's `vLeg` vector reduces to
(legReach, 0, −tz): the foot sits exactly `legReach` outward of the hip along
the mount direction, and `tz` below the raised hip plane. -/
lemma vLeg_tz (dims : HexapodDimensions) (hip : Point3D) (hz : hip.z = 0) (tz : ℝ) :
    legVLeg (tzPose tz) hip (fixedFootOf dims hip) = ⟨legReachConst dims, 0, -tz⟩ := by
  have hc := sqrt_cos_atan2 hip.y hip.x
  have hs := sqrt_sin_atan2 hip.y hip.x
  have hpyth := Real.sin_sq_add_cos_sq (atan2 hip.y hip.x)
  unfold legVLeg legVLocal legFLocal legMountAngle fixedFootOf
  show rotateZ _ (-(atan2 hip.y hip.x)) = _
  rw [show tzPose tz = ⟨0, 0, tz, 0, 0, 0⟩ from rfl, toLocalPt_translation]
  ext
  · show (Real.cos (atan2 hip.y hip.x) *
        (Real.sqrt (hip.x * hip.x + hip.y * hip.y) + legReachConst dims) - 0 - hip.x) *
        Real.cos (-(atan2 hip.y hip.x)) -
      (Real.sin (atan2 hip.y hip.x) *
        (Real.sqrt (hip.x * hip.x + hip.y * hip.y) + legReachConst dims) - 0 - hip.y) *
        Real.sin (-(atan2 hip.y hip.x)) = legReachConst dims
    rw [Real.cos_neg, Real.sin_neg]
    linear_combination legReachConst dims * hpyth + Real.cos (atan2 hip.y hip.x) * hc +
      Real.sin (atan2 hip.y hip.x) * hs
  · show (Real.cos (atan2 hip.y hip.x) *
        (Real.sqrt (hip.x * hip.x + hip.y * hip.y) + legReachConst dims) - 0 - hip.x) *
        Real.sin (-(atan2 hip.y hip.x)) +
      (Real.sin (atan2 hip.y hip.x) *
        (Real.sqrt (hip.x * hip.x + hip.y * hip.y) + legReachConst dims) - 0 - hip.y) *
        Real.cos (-(atan2 hip.y hip.x)) = 0
    rw [Real.cos_neg, Real.sin_neg]
    linear_combination (-Real.sin (atan2 hip.y hip.x)) * hc + Real.cos (atan2 hip.y hip.x) * hs
  · show (0 : ℝ) - tz - hip.z = -tz
    rw [hz]
    ring

lemma planarDist_tz (dims : HexapodDimensions) (hip : Point3D) (hz : hip.z = 0) (tz : ℝ)
    (hL : 0 ≤ legReachConst dims) :
    legPlanarDist (tzPose tz) hip (fixedFootOf dims hip) = legReachConst dims := by
  unfold legPlanarDist
  rw [vLeg_tz dims hip hz tz]
  show Real.sqrt (legReachConst dims * legReachConst dims + 0 * 0) = _
  rw [show legReachConst dims * legReachConst dims + 0 * 0 =
    legReachConst dims * legReachConst dims by ring, Real.sqrt_mul_self hL]

lemma reach_tz (dims : HexapodDimensions) (hip : Point3D) (hz : hip.z = 0) (tz : ℝ)
    (hL : 0 ≤ legReachConst dims) :
    legReach dims (tzPose tz) hip (fixedFootOf dims hip) =
      dims.femur + dims.tibia * 0.5 := by
  unfold legReach
  rw [planarDist_tz dims hip hz tz hL]
  unfold legReachConst
  ring

lemma height_tz (dims : HexapodDimensions) (hip : Point3D) (hz : hip.z = 0) (tz : ℝ) :
    legHeight (tzPose tz) hip (fixedFootOf dims hip) = -tz := by
  unfold legHeight
  rw [vLeg_tz dims hip hz tz]

lemma c_tz (dims : HexapodDimensions) (hip : Point3D) (hz : hip.z = 0) (tz : ℝ)
    (hL : 0 ≤ legReachConst dims) :
    legC dims (tzPose tz) hip (fixedFootOf dims hip) =
      Real.sqrt ((dims.femur + dims.tibia * 0.5) * (dims.femur + dims.tibia * 0.5) +
        tz * tz) := by
  unfold legC
  rw [reach_tz dims hip hz tz hL, height_tz dims hip hz tz]
  rw [show (dims.femur + dims.tibia * 0.5) * (dims.femur + dims.tibia * 0.5) + -tz * -tz =
    (dims.femur + dims.tibia * 0.5) * (dims.femur + dims.tibia * 0.5) + tz * tz by ring]

/-- Closed form of the femur angle (radians) of any leg under the pose
`tzPose tz`, used in the monotonicity analysis of §8's tz scenario. -/
def femurRadClosed (dims : HexapodDimensions) (tz : ℝ) : ℝ :=
  Real.arctan (-tz / (dims.femur + dims.tibia * 0.5)) +
    Real.arccos (clamp ((dims.femur * dims.femur +
      ((dims.femur + dims.tibia * 0.5) * (dims.femur + dims.tibia * 0.5) + tz * tz) -
      dims.tibia * dims.tibia) /
      (2 * dims.femur *
        Real.sqrt ((dims.femur + dims.tibia * 0.5) * (dims.femur + dims.tibia * 0.5) +
          tz * tz))))

lemma femurRad_tz (dims : HexapodDimensions) (hd : DimsPos dims) (hip : Point3D)
    (hz : hip.z = 0) (tz : ℝ) :
    legFemurAngleRad dims (tzPose tz) hip (fixedFootOf dims hip) =
      femurRadClosed dims tz := by
  obtain ⟨-, -, -, h4, h5, h6⟩ := hd
  have hL : 0 ≤ legReachConst dims := by
    unfold legReachConst
    linarith
  have hR : (0 : ℝ) < dims.femur + dims.tibia * 0.5 := by linarith
  have hcsq : (0 : ℝ) ≤ (dims.femur + dims.tibia * 0.5) * (dims.femur + dims.tibia * 0.5) +
      tz * tz := by nlinarith [mul_self_nonneg tz]
  unfold legFemurAngleRad legAlphaTri legBetaTri legCosBeta femurRadClosed
  rw [reach_tz dims hip hz tz hL, height_tz dims hip hz tz, c_tz dims hip hz tz hL,
    atan2_pos_x (-tz) _ hR, Real.mul_self_sqrt hcsq]

/-! ### Monotonicity of the femur angle in the z translation -/

lemma clamp_mono {a b : ℝ} (h : a ≤ b) : clamp a ≤ clamp b :=
  max_le_max le_rfl (min_le_min le_rfl h)

lemma arccos_antitone {a b : ℝ} (h : a ≤ b) : Real.arccos b ≤ Real.arccos a := by
  rw [Real.arccos_eq_pi_div_two_sub_arcsin, Real.arccos_eq_pi_div_two_sub_arcsin]
  have := Real.monotone_arcsin h
  linarith

lemma femurRadClosed_strict_anti (dims : HexapodDimensions) (hd : DimsPos dims)
    {t1 t2 : ℝ} (h0 : 0 ≤ t1) (h12 : t1 < t2) :
    femurRadClosed dims t2 < femurRadClosed dims t1 := by
  obtain ⟨-, -, -, h4, h5, h6⟩ := hd
  unfold femurRadClosed
  set R := dims.femur + dims.tibia * 0.5 with hRdef
  have hR : (0 : ℝ) < R := by rw [hRdef]; linarith
  have ha : Real.arctan (-t2 / R) < Real.arctan (-t1 / R) :=
    Real.arctan_strictMono ((div_lt_div_iff_of_pos_right hR).mpr (by linarith))
  set c1 := Real.sqrt (R * R + t1 * t1) with hc1def
  set c2 := Real.sqrt (R * R + t2 * t2) with hc2def
  have hsq1 : c1 * c1 = R * R + t1 * t1 := Real.mul_self_sqrt (by nlinarith)
  have hsq2 : c2 * c2 = R * R + t2 * t2 := Real.mul_self_sqrt (by nlinarith)
  have hc1R : R ≤ c1 := by
    rw [hc1def]
    calc R = Real.sqrt (R * R) := (Real.sqrt_mul_self hR.le).symm
    _ ≤ Real.sqrt (R * R + t1 * t1) := Real.sqrt_le_sqrt (by nlinarith [mul_self_nonneg t1])
  have hc12 : c1 ≤ c2 := by
    rw [hc1def, hc2def]
    exact Real.sqrt_le_sqrt (by nlinarith)
  have hc1pos : 0 < c1 := lt_of_lt_of_le hR hc1R
  have hc2pos : 0 < c2 := lt_of_lt_of_le hc1pos hc12
  have hβ : (dims.femur * dims.femur + (R * R + t1 * t1) - dims.tibia * dims.tibia) /
        (2 * dims.femur * c1) ≤
      (dims.femur * dims.femur + (R * R + t2 * t2) - dims.tibia * dims.tibia) /
        (2 * dims.femur * c2) := by
    rw [div_le_div_iff₀ (mul_pos (mul_pos (by norm_num) h5) hc1pos)
      (mul_pos (mul_pos (by norm_num) h5) hc2pos)]
    have hkey : 0 ≤ (c2 - c1) *
        (c1 * c2 - (dims.femur * dims.femur - dims.tibia * dims.tibia)) := by
      apply mul_nonneg (by linarith)
      have hprod : R * R ≤ c1 * c2 :=
        mul_le_mul hc1R (hc1R.trans hc12) hR.le (hR.le.trans hc1R)
      rw [hRdef] at hprod
      nlinarith [mul_pos h5 h6, mul_self_nonneg dims.tibia]
    have expand : (dims.femur * dims.femur + (R * R + t2 * t2) - dims.tibia * dims.tibia) *
          (2 * dims.femur * c1) -
        (dims.femur * dims.femur + (R * R + t1 * t1) - dims.tibia * dims.tibia) *
          (2 * dims.femur * c2) =
        2 * dims.femur * ((c2 - c1) *
          (c1 * c2 - (dims.femur * dims.femur - dims.tibia * dims.tibia))) := by
      linear_combination (2 * dims.femur * c2) * hsq1 - (2 * dims.femur * c1) * hsq2
    have h2fX : 0 ≤ 2 * dims.femur * ((c2 - c1) *
        (c1 * c2 - (dims.femur * dims.femur - dims.tibia * dims.tibia))) :=
      mul_nonneg (by linarith) hkey
    linarith [expand, h2fX]
  have hb := arccos_antitone (clamp_mono hβ)
  linarith [ha, hb]

lemma femurRadClosed_anti (dims : HexapodDimensions) (hd : DimsPos dims)
    {t1 t2 : ℝ} (h0 : 0 ≤ t1) (h12 : t1 ≤ t2) :
    femurRadClosed dims t2 ≤ femurRadClosed dims t1 := by
  rcases eq_or_lt_of_le h12 with h | h
  · rw [h]
  · exact (femurRadClosed_strict_anti dims hd h0 h).le

/-- The femur angle reported for leg i of the solver, at the pose that is the
identity except for a z translation of tz. -/
lemma femurAngle_tzPose (dims : HexapodDimensions) (hd : DimsPos dims) (i : ℕ) (hi : i < 6)
    (tz : ℝ) :
    (legAt (solveHexapodIK dims (tzPose tz)) i).femurAngle =
      toDeg (femurRadClosed dims tz) := by
  rw [legAt_solve dims (tzPose tz) i hi]
  show toDeg (legFemurAngleRad dims (tzPose tz) (hipAt dims i) (footAt dims i)) = _
  rw [footAt_fixedFootOf dims i hi, femurRad_tz dims hd (hipAt dims i) (hipAt_z dims i hi) tz]

/-! ### Claim C7 -/

/-- C7: with the pose equal to the identity in every component except tz,
moving tz up from 0 toward coxa + femur + tibia strictly increases the
deviation of each leg's reported femur angle from its identity-pose value. -/
theorem femurAngle_deviation_monotone (dims : HexapodDimensions) (hd : DimsPos dims)
    (i : ℕ) (hi : i < 6) (t1 t2 : ℝ) (h0 : 0 ≤ t1) (h12 : t1 < t2)
    (h2 : t2 ≤ dims.coxa + dims.femur + dims.tibia) :
    |(legAt (solveHexapodIK dims (tzPose t1)) i).femurAngle -
        (legAt (solveHexapodIK dims (tzPose 0)) i).femurAngle| <
      |(legAt (solveHexapodIK dims (tzPose t2)) i).femurAngle -
        (legAt (solveHexapodIK dims (tzPose 0)) i).femurAngle| := by
  rw [femurAngle_tzPose dims hd i hi t1, femurAngle_tzPose dims hd i hi t2,
    femurAngle_tzPose dims hd i hi 0]
  have hpi : (0 : ℝ) < 180 / Real.pi := by positivity
  have habs : ∀ a b : ℝ, |toDeg a - toDeg b| = |a - b| * (180 / Real.pi) := by
    intro a b
    rw [show toDeg a - toDeg b = (a - b) * (180 / Real.pi) by unfold toDeg; ring,
      abs_mul, abs_of_pos hpi]
  rw [habs, habs]
  have hm1 : femurRadClosed dims t1 ≤ femurRadClosed dims 0 :=
    femurRadClosed_anti dims hd le_rfl h0
  have hm2 : femurRadClosed dims t2 < femurRadClosed dims t1 :=
    femurRadClosed_strict_anti dims hd h0 h12
  have e1 : |femurRadClosed dims t1 - femurRadClosed dims 0| =
      femurRadClosed dims 0 - femurRadClosed dims t1 := by
    rw [abs_of_nonpos (by linarith)]
    ring
  have e2 : |femurRadClosed dims t2 - femurRadClosed dims 0| =
      femurRadClosed dims 0 - femurRadClosed dims t2 := by
    rw [abs_of_nonpos (by linarith)]
    ring
  rw [e1, e2]
  have : femurRadClosed dims 0 - femurRadClosed dims t1 <
      femurRadClosed dims 0 - femurRadClosed dims t2 := by linarith
  exact mul_lt_mul_of_pos_right this hpi

/-- Witness for C7 at concrete dimensions, leg 0 and tz values 0 and 1. -/
theorem femurAngle_deviation_monotone_witness :
    DimsPos ⟨1, 1, 1, 1, 1, 1⟩ ∧ (0 : ℕ) < 6 ∧ (0 : ℝ) ≤ 0 ∧ (0 : ℝ) < 1 ∧
      ((1 : ℝ) ≤ (1 : ℝ) + 1 + 1) ∧
      |(legAt (solveHexapodIK ⟨1, 1, 1, 1, 1, 1⟩ (tzPose 0)) 0).femurAngle -
          (legAt (solveHexapodIK ⟨1, 1, 1, 1, 1, 1⟩ (tzPose 0)) 0).femurAngle| <
        |(legAt (solveHexapodIK ⟨1, 1, 1, 1, 1, 1⟩ (tzPose 1)) 0).femurAngle -
          (legAt (solveHexapodIK ⟨1, 1, 1, 1, 1, 1⟩ (tzPose 0)) 0).femurAngle| :=
  ⟨by norm_num [DimsPos], by norm_num, le_rfl, by norm_num, by norm_num,
   femurAngle_deviation_monotone ⟨1, 1, 1, 1, 1, 1⟩ (by norm_num [DimsPos]) 0 (by norm_num)
     0 1 le_rfl (by norm_num) (by norm_num)⟩

/-! ### Angle bounds in degrees -/

lemma toDeg_mem {x : ℝ} (h1 : -Real.pi ≤ x) (h2 : x ≤ Real.pi) :
    -180 ≤ toDeg x ∧ toDeg x ≤ 180 := by
  unfold toDeg
  constructor
  · rw [le_div_iff₀ Real.pi_pos]
    nlinarith [Real.pi_pos]
  · rw [div_le_iff₀ Real.pi_pos]
    nlinarith [Real.pi_pos]

lemma tibiaAngleDeg_mem (dims : HexapodDimensions) (pose : BodyPose)
    (localHip footWorld : Point3D) :
    -180 ≤ toDeg (legGammaTri dims pose localHip footWorld) ∧
      toDeg (legGammaTri dims pose localHip footWorld) ≤ 180 := by
  have h1 := Real.arccos_nonneg (clamp (legCosGamma dims pose localHip footWorld))
  have h2 := Real.arccos_le_pi (clamp (legCosGamma dims pose localHip footWorld))
  exact toDeg_mem (by unfold legGammaTri; nlinarith [Real.pi_pos])
    (by unfold legGammaTri; linarith)

lemma femurRadClosed_mem (dims : HexapodDimensions) (hd : DimsPos dims) (tz : ℝ)
    (htz : 0 ≤ tz) :
    -Real.pi ≤ femurRadClosed dims tz ∧ femurRadClosed dims tz ≤ Real.pi := by
  obtain ⟨-, -, -, h4, h5, h6⟩ := hd
  have hR : (0 : ℝ) < dims.femur + dims.tibia * 0.5 := by linarith
  unfold femurRadClosed
  have h1 := Real.neg_pi_div_two_lt_arctan (-tz / (dims.femur + dims.tibia * 0.5))
  have h2 : Real.arctan (-tz / (dims.femur + dims.tibia * 0.5)) ≤ 0 := by
    have hle : -tz / (dims.femur + dims.tibia * 0.5) ≤ 0 :=
      div_nonpos_iff.mpr (Or.inr ⟨by linarith, hR.le⟩)
    calc Real.arctan (-tz / (dims.femur + dims.tibia * 0.5)) ≤ Real.arctan 0 :=
      Real.arctan_strictMono.monotone hle
    _ = 0 := Real.arctan_zero
  have h3 := Real.arccos_nonneg (clamp ((dims.femur * dims.femur +
      ((dims.femur + dims.tibia * 0.5) * (dims.femur + dims.tibia * 0.5) + tz * tz) -
      dims.tibia * dims.tibia) /
      (2 * dims.femur * Real.sqrt ((dims.femur + dims.tibia * 0.5) *
        (dims.femur + dims.tibia * 0.5) + tz * tz))))
  have h4p := Real.arccos_le_pi (clamp ((dims.femur * dims.femur +
      ((dims.femur + dims.tibia * 0.5) * (dims.femur + dims.tibia * 0.5) + tz * tz) -
      dims.tibia * dims.tibia) /
      (2 * dims.femur * Real.sqrt ((dims.femur + dims.tibia * 0.5) *
        (dims.femur + dims.tibia * 0.5) + tz * tz))))
  constructor <;> nlinarith [Real.pi_pos]

/-! ### Claim C8 -/

/-- C8: for dims front = side = middle = 100, coxa = 50, femur = 100,
tibia = 120 and the pose that is the identity except tz = 80, the solver
returns exactly six legs and six body corners, each leg's foot lies on the
ground plane, and each femur and tibia angle lies within [−180°, 180°]. -/
theorem scenario_tz80 :
    (solveHexapodIK ⟨100, 100, 100, 50, 100, 120⟩ ⟨0, 0, 80, 0, 0, 0⟩).legs.length = 6 ∧
    (solveHexapodIK ⟨100, 100, 100, 50, 100, 120⟩ ⟨0, 0, 80, 0, 0, 0⟩).bodyCorners.length = 6 ∧
    ∀ i : ℕ, i < 6 →
      (legAt (solveHexapodIK ⟨100, 100, 100, 50, 100, 120⟩
          ⟨0, 0, 80, 0, 0, 0⟩) i).joints.foot.z = 0 ∧
      (-180 ≤ (legAt (solveHexapodIK ⟨100, 100, 100, 50, 100, 120⟩
          ⟨0, 0, 80, 0, 0, 0⟩) i).femurAngle ∧
        (legAt (solveHexapodIK ⟨100, 100, 100, 50, 100, 120⟩
          ⟨0, 0, 80, 0, 0, 0⟩) i).femurAngle ≤ 180) ∧
      (-180 ≤ (legAt (solveHexapodIK ⟨100, 100, 100, 50, 100, 120⟩
          ⟨0, 0, 80, 0, 0, 0⟩) i).tibiaAngle ∧
        (legAt (solveHexapodIK ⟨100, 100, 100, 50, 100, 120⟩
          ⟨0, 0, 80, 0, 0, 0⟩) i).tibiaAngle ≤ 180) := by
  have hd : DimsPos ⟨100, 100, 100, 50, 100, 120⟩ := by norm_num [DimsPos]
  have hpose : (⟨0, 0, 80, 0, 0, 0⟩ : BodyPose) = tzPose 80 := rfl
  refine ⟨legs_length _ _, bodyCorners_length _ _, ?_⟩
  intro i hi
  refine ⟨?_, ?_, ?_⟩
  · rw [legAt_solve _ _ i hi, solveLeg_foot]
    exact footAt_z _ i hi
  · rw [hpose, femurAngle_tzPose _ hd i hi 80]
    exact toDeg_mem (femurRadClosed_mem _ hd 80 (by norm_num)).1
      (femurRadClosed_mem _ hd 80 (by norm_num)).2
  · rw [legAt_solve _ _ i hi]
    exact tibiaAngleDeg_mem _ _ _ _

/-! ### Claim C5 -/

/-- C5: the tibia angle reported for each leg is, in degrees, the arccosine of
the clamped law-of-cosines quotient (femur² + tibia² − c²)/(2·femur·tibia),
where c is the square root of reach² + height² for that leg. -/
theorem tibiaAngle_formula (dims : HexapodDimensions) (pose : BodyPose)
    (hd : DimsPos dims) (i : ℕ) (hi : i < 6) :
    (legAt (solveHexapodIK dims pose) i).tibiaAngle =
      toDeg (Real.arccos (clamp ((dims.femur * dims.femur + dims.tibia * dims.tibia -
        legC dims pose (hipAt dims i) (footAt dims i) *
          legC dims pose (hipAt dims i) (footAt dims i)) /
        (2 * dims.femur * dims.tibia)))) ∧
    legC dims pose (hipAt dims i) (footAt dims i) =
      Real.sqrt (legReach dims pose (hipAt dims i) (footAt dims i) *
          legReach dims pose (hipAt dims i) (footAt dims i) +
        legHeight pose (hipAt dims i) (footAt dims i) *
          legHeight pose (hipAt dims i) (footAt dims i)) := by
  rw [legAt_solve dims pose i hi]
  exact ⟨rfl, rfl⟩

/-- Witness for C5 at a concrete positive dimension set and pose. -/
theorem tibiaAngle_formula_witness :
    DimsPos ⟨1, 1, 1, 1, 1, 1⟩ ∧ (0 : ℕ) < 6 ∧
      ((legAt (solveHexapodIK ⟨1, 1, 1, 1, 1, 1⟩ ⟨0, 0, 0, 0, 0, 0⟩) 0).tibiaAngle =
        toDeg (Real.arccos (clamp (((1 : ℝ) * 1 + 1 * 1 -
          legC ⟨1, 1, 1, 1, 1, 1⟩ ⟨0, 0, 0, 0, 0, 0⟩ (hipAt ⟨1, 1, 1, 1, 1, 1⟩ 0)
              (footAt ⟨1, 1, 1, 1, 1, 1⟩ 0) *
            legC ⟨1, 1, 1, 1, 1, 1⟩ ⟨0, 0, 0, 0, 0, 0⟩ (hipAt ⟨1, 1, 1, 1, 1, 1⟩ 0)
              (footAt ⟨1, 1, 1, 1, 1, 1⟩ 0)) /
          (2 * 1 * 1)))) ∧
      legC ⟨1, 1, 1, 1, 1, 1⟩ ⟨0, 0, 0, 0, 0, 0⟩ (hipAt ⟨1, 1, 1, 1, 1, 1⟩ 0)
          (footAt ⟨1, 1, 1, 1, 1, 1⟩ 0) =
        Real.sqrt (legReach ⟨1, 1, 1, 1, 1, 1⟩ ⟨0, 0, 0, 0, 0, 0⟩ (hipAt ⟨1, 1, 1, 1, 1, 1⟩ 0)
            (footAt ⟨1, 1, 1, 1, 1, 1⟩ 0) *
          legReach ⟨1, 1, 1, 1, 1, 1⟩ ⟨0, 0, 0, 0, 0, 0⟩ (hipAt ⟨1, 1, 1, 1, 1, 1⟩ 0)
            (footAt ⟨1, 1, 1, 1, 1, 1⟩ 0) +
          legHeight ⟨0, 0, 0, 0, 0, 0⟩ (hipAt ⟨1, 1, 1, 1, 1, 1⟩ 0)
            (footAt ⟨1, 1, 1, 1, 1, 1⟩ 0) *
          legHeight ⟨0, 0, 0, 0, 0, 0⟩ (hipAt ⟨1, 1, 1, 1, 1, 1⟩ 0)
            (footAt ⟨1, 1, 1, 1, 1, 1⟩ 0))) :=
  ⟨by norm_num [DimsPos], by norm_num,
   tibiaAngle_formula ⟨1, 1, 1, 1, 1, 1⟩ ⟨0, 0, 0, 0, 0, 0⟩ (by norm_num [DimsPos]) 0
     (by norm_num)⟩

/-! ### Claim C3: IEEE semantics of the law-of-cosines division -/

/-- Outcomes of IEEE double arithmetic relevant to the law-of-cosines
pipeline: a finite real value, a signed infinity, or NaN.  `ℝ`'s convention
`x / 0 = 0` would silently hide the JavaScript behaviour at a zero
hypotenuse, so the one division with a possibly-zero divisor is modelled
explicitly. -/
inductive JSNum where
  | real : ℝ → JSNum
  | posInf : JSNum
  | negInf : JSNum
  | nan : JSNum

/-- JavaScript division `a / b` for finite operands: a signed infinity when
only the divisor is zero, NaN for 0/0. -/
def jsDiv (a b : ℝ) : JSNum :=
  if b = 0 then (if 0 < a then .posInf else if a < 0 then .negInf else .nan)
  else .real (a / b)

/-- JavaScript `Math.max(-1, Math.min(1, v))`: infinities clamp to ±1, NaN
propagates through `Math.min`/`Math.max`. -/
def jsClamp : JSNum → JSNum
  | .real x => .real (clamp x)
  | .posInf => .real 1
  | .negInf => .real (-1)
  | .nan => .nan

/-- JavaScript `Math.acos`: NaN outside [−1, 1] and on NaN. -/
def jsAcos : JSNum → JSNum
  | .real x => if -1 ≤ x ∧ x ≤ 1 then .real (Real.arccos x) else .nan
  | _ => .nan

/-- Adding a finite real (the `alphaTri` term) on the left: NaN propagates. -/
def jsAddReal (a : ℝ) : JSNum → JSNum
  | .real x => .real (a + x)
  | .posInf => .posInf
  | .negInf => .negInf
  | .nan => .nan

/-- The `toDeg` conversion on a JS value: NaN propagates. -/
def jsToDeg : JSNum → JSNum
  | .real x => .real (toDeg x)
  | .posInf => .posInf
  | .negInf => .negInf
  | .nan => .nan

/-- The reported femur angle of one leg with JavaScript semantics for the
division `(femur² + c² − tibia²) / (2·femur·c)`; everything upstream of that
division is finite real arithmetic for finite inputs. -/
def femurAngleJS (dims : HexapodDimensions) (pose : BodyPose)
    (localHip footWorld : Point3D) : JSNum :=
  jsToDeg (jsAddReal (legAlphaTri dims pose localHip footWorld)
    (jsAcos (jsClamp (jsDiv
      (dims.femur * dims.femur +
        legC dims pose localHip footWorld * legC dims pose localHip footWorld -
        dims.tibia * dims.tibia)
      (2 * dims.femur * legC dims pose localHip footWorld)))))

/-- The reported tibia angle of one leg with JavaScript semantics for the
division `(femur² + tibia² − c²) / (2·femur·tibia)`. -/
def tibiaAngleJS (dims : HexapodDimensions) (pose : BodyPose)
    (localHip footWorld : Point3D) : JSNum :=
  jsToDeg (jsAcos (jsClamp (jsDiv
    (dims.femur * dims.femur + dims.tibia * dims.tibia -
      legC dims pose localHip footWorld * legC dims pose localHip footWorld)
    (2 * dims.femur * dims.tibia))))

lemma clamp_mem (v : ℝ) : -1 ≤ clamp v ∧ clamp v ≤ 1 :=
  ⟨le_max_left _ _, max_le (by norm_num) (min_le_left _ _)⟩

/-! Concrete evaluation of leg 0 at dimensions all 1 and pose tx = 3/2: the
foot target lands exactly on the femur pivot, so the hypotenuse c is 0.
These lemmas are shared by the degenerate-input counterexamples below. -/

lemma hipAt_unit_0 : hipAt ⟨1, 1, 1, 1, 1, 1⟩ 0 = ⟨1, 0, 0⟩ := rfl

lemma footAt_unit_0 : footAt ⟨1, 1, 1, 1, 1, 1⟩ 0 = ⟨7 / 2, 0, 0⟩ := by
  rw [footAt_fixedFootOf ⟨1, 1, 1, 1, 1, 1⟩ 0 (by norm_num), hipAt_unit_0]
  unfold fixedFootOf legReachConst
  ext
  · show Real.cos (atan2 0 1) * (Real.sqrt (1 * 1 + 0 * 0) + ((1 : ℝ) + 1 + 1 * 0.5)) = 7 / 2
    rw [atan2_zero_pos 1 one_pos, Real.cos_zero,
      show (1 : ℝ) * 1 + 0 * 0 = 1 by norm_num, Real.sqrt_one]
    norm_num
  · show Real.sin (atan2 0 1) * (Real.sqrt (1 * 1 + 0 * 0) + ((1 : ℝ) + 1 + 1 * 0.5)) = 0
    rw [atan2_zero_pos 1 one_pos, Real.sin_zero]
    ring
  · rfl

lemma vLeg_unit_tx : legVLeg ⟨3 / 2, 0, 0, 0, 0, 0⟩ (⟨1, 0, 0⟩ : Point3D)
    (⟨7 / 2, 0, 0⟩ : Point3D) = ⟨1, 0, 0⟩ := by
  unfold legVLeg legVLocal legFLocal legMountAngle
  rw [toLocalPt_translation]
  show rotateZ ⟨7 / 2 - 3 / 2 - 1, 0 - 0 - 0, 0 - 0 - 0⟩ (-(atan2 0 1)) = _
  rw [atan2_zero_pos 1 one_pos, neg_zero, rotateZ_zero]
  ext <;> norm_num

lemma legC_unit_tx : legC ⟨1, 1, 1, 1, 1, 1⟩ ⟨3 / 2, 0, 0, 0, 0, 0⟩ (⟨1, 0, 0⟩ : Point3D)
    (⟨7 / 2, 0, 0⟩ : Point3D) = 0 := by
  unfold legC legReach legPlanarDist legHeight
  rw [vLeg_unit_tx]
  show Real.sqrt ((Real.sqrt (1 * 1 + 0 * 0) - 1) * (Real.sqrt (1 * 1 + 0 * 0) - 1) +
    0 * 0) = 0
  rw [show (1 : ℝ) * 1 + 0 * 0 = 1 by norm_num, Real.sqrt_one,
    show ((1 : ℝ) - 1) * (1 - 1) + 0 * 0 = 0 by ring, Real.sqrt_zero]

/-- C3 counterexample: at dimensions all 1 (femur = tibia) and the finite pose
tx = 3/2, leg 0's foot target coincides with its femur pivot, the hypotenuse
c is exactly 0, the law-of-cosines divisor 2·femur·c is 0 with a 0 numerator,
and the JavaScript pipeline returns NaN for the femur angle: the clamp does
not rescue `0 / 0`. -/
theorem femurAngle_nan_counterexample :
    legC ⟨1, 1, 1, 1, 1, 1⟩ ⟨3 / 2, 0, 0, 0, 0, 0⟩ (hipAt ⟨1, 1, 1, 1, 1, 1⟩ 0)
        (footAt ⟨1, 1, 1, 1, 1, 1⟩ 0) = 0 ∧
      femurAngleJS ⟨1, 1, 1, 1, 1, 1⟩ ⟨3 / 2, 0, 0, 0, 0, 0⟩ (hipAt ⟨1, 1, 1, 1, 1, 1⟩ 0)
        (footAt ⟨1, 1, 1, 1, 1, 1⟩ 0) = JSNum.nan := by
  refine ⟨by rw [hipAt_unit_0, footAt_unit_0]; exact legC_unit_tx, ?_⟩
  rw [femurAngleJS, hipAt_unit_0, footAt_unit_0, legC_unit_tx]
  norm_num [jsDiv, jsClamp, jsAcos, jsAddReal, jsToDeg]

/-- C3 (amended): whenever the hypotenuse c of a leg is nonzero (so the
law-of-cosines divisor 2·femur·c is nonzero), the JavaScript femur-angle
pipeline produces a finite real equal to the solver's reported femur angle;
the tibia-angle divisor 2·femur·tibia is always nonzero for positive
dimensions, so the reported tibia angle is a real number as well. -/
theorem angles_real_of_c_ne_zero (dims : HexapodDimensions) (pose : BodyPose)
    (hd : DimsPos dims) (i : ℕ) (hi : i < 6)
    (hc : legC dims pose (hipAt dims i) (footAt dims i) ≠ 0) :
    femurAngleJS dims pose (hipAt dims i) (footAt dims i) =
      JSNum.real ((legAt (solveHexapodIK dims pose) i).femurAngle) ∧
    tibiaAngleJS dims pose (hipAt dims i) (footAt dims i) =
      JSNum.real ((legAt (solveHexapodIK dims pose) i).tibiaAngle) := by
  obtain ⟨-, -, -, -, h5, h6⟩ := hd
  rw [legAt_solve dims pose i hi]
  constructor
  · have hden : 2 * dims.femur * legC dims pose (hipAt dims i) (footAt dims i) ≠ 0 :=
      mul_ne_zero (mul_ne_zero (by norm_num) (ne_of_gt h5)) hc
    rw [femurAngleJS, jsDiv, if_neg hden]
    show jsToDeg (jsAddReal _ (jsAcos (JSNum.real (clamp _)))) = _
    rw [jsAcos, if_pos ⟨(clamp_mem _).1, (clamp_mem _).2⟩]
    rfl
  · have hden : 2 * dims.femur * dims.tibia ≠ 0 :=
      mul_ne_zero (mul_ne_zero (by norm_num) (ne_of_gt h5)) (ne_of_gt h6)
    rw [tibiaAngleJS, jsDiv, if_neg hden]
    show jsToDeg (jsAcos (JSNum.real (clamp _))) = _
    rw [jsAcos, if_pos ⟨(clamp_mem _).1, (clamp_mem _).2⟩]
    rfl

/-- Witness for the amended C3 at a pose where the hypotenuse is nonzero. -/
theorem angles_real_of_c_ne_zero_witness :
    DimsPos ⟨1, 1, 1, 1, 1, 1⟩ ∧ (0 : ℕ) < 6 ∧
      legC ⟨1, 1, 1, 1, 1, 1⟩ ⟨0, 0, 0, 0, 0, 0⟩ (hipAt ⟨1, 1, 1, 1, 1, 1⟩ 0)
        (footAt ⟨1, 1, 1, 1, 1, 1⟩ 0) ≠ 0 ∧
      (femurAngleJS ⟨1, 1, 1, 1, 1, 1⟩ ⟨0, 0, 0, 0, 0, 0⟩ (hipAt ⟨1, 1, 1, 1, 1, 1⟩ 0)
          (footAt ⟨1, 1, 1, 1, 1, 1⟩ 0) =
        JSNum.real ((legAt (solveHexapodIK ⟨1, 1, 1, 1, 1, 1⟩
          ⟨0, 0, 0, 0, 0, 0⟩) 0).femurAngle) ∧
      tibiaAngleJS ⟨1, 1, 1, 1, 1, 1⟩ ⟨0, 0, 0, 0, 0, 0⟩ (hipAt ⟨1, 1, 1, 1, 1, 1⟩ 0)
          (footAt ⟨1, 1, 1, 1, 1, 1⟩ 0) =
        JSNum.real ((legAt (solveHexapodIK ⟨1, 1, 1, 1, 1, 1⟩
          ⟨0, 0, 0, 0, 0, 0⟩) 0).tibiaAngle)) := by
  have hcpos : legC ⟨1, 1, 1, 1, 1, 1⟩ ⟨0, 0, 0, 0, 0, 0⟩ (hipAt ⟨1, 1, 1, 1, 1, 1⟩ 0)
      (footAt ⟨1, 1, 1, 1, 1, 1⟩ 0) ≠ 0 := by
    rw [show (⟨0, 0, 0, 0, 0, 0⟩ : BodyPose) = tzPose 0 from rfl,
      footAt_fixedFootOf ⟨1, 1, 1, 1, 1, 1⟩ 0 (by norm_num),
      c_tz ⟨1, 1, 1, 1, 1, 1⟩ (hipAt ⟨1, 1, 1, 1, 1, 1⟩ 0)
        (hipAt_z ⟨1, 1, 1, 1, 1, 1⟩ 0 (by norm_num)) 0
        (by unfold legReachConst; norm_num)]
    exact ne_of_gt (Real.sqrt_pos.2 (by norm_num))
  exact ⟨by norm_num [DimsPos], by norm_num, hcpos,
    angles_real_of_c_ne_zero ⟨1, 1, 1, 1, 1, 1⟩ ⟨0, 0, 0, 0, 0, 0⟩ (by norm_num [DimsPos]) 0
      (by norm_num) hcpos⟩

/-! ### Claim C10: the femur joint with IEEE semantics -/

/-- JavaScript `Math.sin`: NaN on NaN and on infinities, exact on the reals
of this pipeline otherwise. -/
def jsSin : JSNum → JSNum
  | .real x => .real (Real.sin x)
  | _ => .nan

/-- Multiplication of a JS value by a finite real on the left: NaN
propagates, an infinity keeps or flips its sign with a nonzero factor and
degenerates to NaN with a zero factor. -/
def jsMulReal (a : ℝ) : JSNum → JSNum
  | .real x => .real (a * x)
  | .posInf => if 0 < a then .posInf else if a < 0 then .negInf else .nan
  | .negInf => if 0 < a then .negInf else if a < 0 then .posInf else .nan
  | .nan => .nan

/-- The femur angle in radians (the value of the source's `femurAngle` local,
before `toDeg`) with JavaScript semantics for the division
`(femur² + c² − tibia²) / (2·femur·c)`. -/
def femurAngleRadJS (dims : HexapodDimensions) (pose : BodyPose)
    (localHip footWorld : Point3D) : JSNum :=
  jsAddReal (legAlphaTri dims pose localHip footWorld)
    (jsAcos (jsClamp (jsDiv
      (dims.femur * dims.femur +
        legC dims pose localHip footWorld * legC dims pose localHip footWorld -
        dims.tibia * dims.tibia)
      (2 * dims.femur * legC dims pose localHip footWorld))))

/-- Source: `fem_v = dims.femur * Math.sin(femurAngle)` with JavaScript
semantics: NaN exactly when the femur angle is NaN. -/
def femVJS (dims : HexapodDimensions) (pose : BodyPose)
    (localHip footWorld : Point3D) : JSNum :=
  jsMulReal dims.femur (jsSin (femurAngleRadJS dims pose localHip footWorld))

/-- The z-coordinate of `joints.femur` with JavaScript semantics, for poses
whose three rotation components are zero.  In the source, `p2_leg.z = fem_v`,
`rotateZ` copies z verbatim (`z: p.z`), `j2_local.z = p2_body.z +
hipLocal.z`, and with zero angles `rotateX`/`rotateY` leave z unchanged in
IEEE arithmetic too (`y·sin 0 + z·cos 0 = 0 + z`, NaN included), after which
`toWorld` adds tz.  So `joints.femur.z = tz + (hip.z + fem_v)`. -/
def femurJointZJS (dims : HexapodDimensions) (pose : BodyPose)
    (localHip footWorld : Point3D) : JSNum :=
  jsAddReal pose.tz (jsAddReal localHip.z (femVJS dims pose localHip footWorld))

/-- C10 counterexample: at dimensions all 1 and the finite pose tx = 3/2,
leg 0's hypotenuse c is exactly 0, the femur angle is NaN (0/0 survives the
clamp), and therefore the z-coordinate of the output femur joint is NaN
under IEEE semantics: the coxa-to-femur distance of the program's output is
NaN there, not the femur length, refuting the claim over every finite pose. -/
theorem segment_lengths_nan_counterexample :
    legC ⟨1, 1, 1, 1, 1, 1⟩ ⟨3 / 2, 0, 0, 0, 0, 0⟩ (hipAt ⟨1, 1, 1, 1, 1, 1⟩ 0)
        (footAt ⟨1, 1, 1, 1, 1, 1⟩ 0) = 0 ∧
      femurJointZJS ⟨1, 1, 1, 1, 1, 1⟩ ⟨3 / 2, 0, 0, 0, 0, 0⟩ (hipAt ⟨1, 1, 1, 1, 1, 1⟩ 0)
        (footAt ⟨1, 1, 1, 1, 1, 1⟩ 0) = JSNum.nan := by
  refine ⟨by rw [hipAt_unit_0, footAt_unit_0]; exact legC_unit_tx, ?_⟩
  rw [femurJointZJS, femVJS, femurAngleRadJS, hipAt_unit_0, footAt_unit_0, legC_unit_tx]
  norm_num [jsDiv, jsClamp, jsAcos, jsAddReal, jsSin, jsMulReal]

/-- C10 (amended): for every positive dimension set, every pose and each leg
whose hypotenuse c is nonzero — so the IEEE femur-angle pipeline produces the
same finite real as the `ℝ` model, NaN being impossible — the output joint
positions preserve the first two segment lengths exactly: body contact to
coxa joint is the coxa length and coxa joint to femur joint is the femur
length, including clamped (unreachable) targets with c ≠ 0. -/
theorem segment_lengths_preserved (dims : HexapodDimensions) (pose : BodyPose)
    (hd : DimsPos dims) (i : ℕ) (hi : i < 6)
    (hc : legC dims pose (hipAt dims i) (footAt dims i) ≠ 0) :
    femurAngleRadJS dims pose (hipAt dims i) (footAt dims i) =
      JSNum.real (legFemurAngleRad dims pose (hipAt dims i) (footAt dims i)) ∧
    dist3 (legAt (solveHexapodIK dims pose) i).joints.bodyContact
        (legAt (solveHexapodIK dims pose) i).joints.coxa = dims.coxa ∧
      dist3 (legAt (solveHexapodIK dims pose) i).joints.coxa
        (legAt (solveHexapodIK dims pose) i).joints.femur = dims.femur := by
  obtain ⟨-, -, -, hc4, hf5, -⟩ := hd
  refine ⟨?_, ?_, ?_⟩
  · have hden : 2 * dims.femur * legC dims pose (hipAt dims i) (footAt dims i) ≠ 0 :=
      mul_ne_zero (mul_ne_zero (by norm_num) (ne_of_gt hf5)) hc
    rw [femurAngleRadJS, jsDiv, if_neg hden]
    show jsAddReal _ (jsAcos (JSNum.real (clamp _))) = _
    rw [jsAcos, if_pos ⟨(clamp_mem _).1, (clamp_mem _).2⟩]
    rfl
  · rw [legAt_solve dims pose i hi]
    show dist3 (toWorldPt pose (hipAt dims i))
      (toWorldPt pose (j1Local dims pose (hipAt dims i) (footAt dims i))) = dims.coxa
    rw [dist3_toWorldPt]
    exact dist3_hip_j1 dims pose (hipAt dims i) (footAt dims i) hc4.le
  · rw [legAt_solve dims pose i hi]
    show dist3 (toWorldPt pose (j1Local dims pose (hipAt dims i) (footAt dims i)))
      (toWorldPt pose (j2Local dims pose (hipAt dims i) (footAt dims i))) = dims.femur
    rw [dist3_toWorldPt]
    exact dist3_j1_j2 dims pose (hipAt dims i) (footAt dims i) hf5.le

/-- Witness for the amended C10 at a pose where the hypotenuse is nonzero. -/
theorem segment_lengths_preserved_witness :
    DimsPos ⟨1, 1, 1, 1, 1, 1⟩ ∧ (0 : ℕ) < 6 ∧
      legC ⟨1, 1, 1, 1, 1, 1⟩ ⟨0, 0, 0, 0, 0, 0⟩ (hipAt ⟨1, 1, 1, 1, 1, 1⟩ 0)
        (footAt ⟨1, 1, 1, 1, 1, 1⟩ 0) ≠ 0 ∧
      (femurAngleRadJS ⟨1, 1, 1, 1, 1, 1⟩ ⟨0, 0, 0, 0, 0, 0⟩ (hipAt ⟨1, 1, 1, 1, 1, 1⟩ 0)
          (footAt ⟨1, 1, 1, 1, 1, 1⟩ 0) =
        JSNum.real (legFemurAngleRad ⟨1, 1, 1, 1, 1, 1⟩ ⟨0, 0, 0, 0, 0, 0⟩
          (hipAt ⟨1, 1, 1, 1, 1, 1⟩ 0) (footAt ⟨1, 1, 1, 1, 1, 1⟩ 0)) ∧
      dist3 (legAt (solveHexapodIK ⟨1, 1, 1, 1, 1, 1⟩ ⟨0, 0, 0, 0, 0, 0⟩)
            0).joints.bodyContact
          (legAt (solveHexapodIK ⟨1, 1, 1, 1, 1, 1⟩ ⟨0, 0, 0, 0, 0, 0⟩)
            0).joints.coxa = 1 ∧
        dist3 (legAt (solveHexapodIK ⟨1, 1, 1, 1, 1, 1⟩ ⟨0, 0, 0, 0, 0, 0⟩)
            0).joints.coxa
          (legAt (solveHexapodIK ⟨1, 1, 1, 1, 1, 1⟩ ⟨0, 0, 0, 0, 0, 0⟩)
            0).joints.femur = 1) := by
  have hcpos : legC ⟨1, 1, 1, 1, 1, 1⟩ ⟨0, 0, 0, 0, 0, 0⟩ (hipAt ⟨1, 1, 1, 1, 1, 1⟩ 0)
      (footAt ⟨1, 1, 1, 1, 1, 1⟩ 0) ≠ 0 := by
    rw [show (⟨0, 0, 0, 0, 0, 0⟩ : BodyPose) = tzPose 0 from rfl,
      footAt_fixedFootOf ⟨1, 1, 1, 1, 1, 1⟩ 0 (by norm_num),
      c_tz ⟨1, 1, 1, 1, 1, 1⟩ (hipAt ⟨1, 1, 1, 1, 1, 1⟩ 0)
        (hipAt_z ⟨1, 1, 1, 1, 1, 1⟩ 0 (by norm_num)) 0
        (by unfold legReachConst; norm_num)]
    exact ne_of_gt (Real.sqrt_pos.2 (by norm_num))
  exact ⟨by norm_num [DimsPos], by norm_num, hcpos,
    segment_lengths_preserved ⟨1, 1, 1, 1, 1, 1⟩ ⟨0, 0, 0, 0, 0, 0⟩ (by norm_num [DimsPos]) 0
      (by norm_num) hcpos⟩

end
